import Mathlib

/-!
# Verification of the clinic-dashboard command-execution core (src/app.js)

A shallow embedding of the conversational command-execution core of the
clinic-management front end: the `Database` wrapper, the `DataCache`
refresh functions, the `ToolExecutor` action handlers and dispatcher, and
the entity-mention linker, all translated from `src/app.js`.

Modelling conventions:
* JavaScript string values use `String`; a missing (`undefined`) field on a
  stored record is modelled as `""`, which the source code treats
  identically to a missing field under `||`-defaulting.  Parameters coming
  from the assistant are modelled as `Option` fields (`none` = key absent),
  because the source distinguishes `undefined` from present values
  (e.g. `params.newQuantity !== undefined`).
* JavaScript `a || b` on strings/numbers is `jsOrS` / `jsOrN` (falsy values:
  `""`, `0`, `undefined`).
* Dates are ISO `YYYY-MM-DD` strings; `new Date(x) <= new Date(y)` and the
  sort comparator `new Date(a) - new Date(b)` are modelled by lexicographic
  string comparison, which agrees with chronological order on ISO strings.
  "Start of the current calendar day" is the `today` field of the system
  state.
* The persistence collaborator (`window.db`) is not part of src/app.js; its
  operations are modelled from the spec's external-interface section
  (create assigns a fresh id and stores the record, update merges the
  supplied partial record, delete removes by id, reads return the stored
  collections).
* `async`/`await` is sequential state passing; DOM painting is dropped,
  but every mutation of `DataCache` / `selectedCalendarDate` performed by
  the rendering helpers is kept.
-/

set_option maxRecDepth 4096

namespace Clinic

/-! ## JavaScript-semantics helpers -/

/-- JS `a || d` for an optional string value: `undefined` and `""` are falsy. -/
def jsOrS : Option String → String → String
  | none, d => d
  | some s, d => if s = "" then d else s

/-- JS `a || d` for an optional number value: `undefined`, `NaN` and `0` are falsy. -/
def jsOrN : Option Nat → Nat → Nat
  | none, d => d
  | some n, d => if n = 0 then d else n

/-- JS truthiness of an optional string (`undefined` and `""` are falsy). -/
def truthyS : Option String → Bool
  | none => false
  | some s => !(s = "")

/-- JS truthiness of an optional number (`undefined` and `0` are falsy). -/
def truthyN : Option Nat → Bool
  | none => false
  | some n => !(n = 0)

/-- JS truthiness of an optional boolean. -/
def truthyB : Option Bool → Bool
  | none => false
  | some b => b

/-- Model of JS `String.prototype.toLowerCase` (ASCII case folding). -/
def lowerStr (s : String) : String :=
  String.mk (s.data.map Char.toLower)

/-- Boolean prefix test on character lists. -/
def isPrefB : List Char → List Char → Bool
  | [], _ => true
  | _ :: _, [] => false
  | a :: as, b :: bs => a = b && isPrefB as bs

/-- Boolean substring test on character lists. -/
def isInfB (pat : List Char) : List Char → Bool
  | [] => isPrefB pat []
  | b :: bs => isPrefB pat (b :: bs) || isInfB pat bs

/-- Model of JS `a.includes(b)` (substring containment). -/
def strContains (s pat : String) : Bool :=
  isInfB pat.data s.data

/-- Model of the pervasive `x.toLowerCase().includes(q.toLowerCase())`
case-insensitive substring test. -/
def containsCI (s q : String) : Bool :=
  strContains (lowerStr s) (lowerStr q)

/-- Lexicographic strict order on character lists (by code point). -/
def lexLt : List Char → List Char → Bool
  | [], [] => false
  | [], _ :: _ => true
  | _ :: _, [] => false
  | a :: as, b :: bs => if a = b then lexLt as bs else decide (a < b)

/-- Model of `new Date(a) <= new Date(b)` on ISO date strings. -/
def dateLe (a b : String) : Bool :=
  !(lexLt b.data a.data)

/-- Stable insertion of an element into a list sorted by a string key. -/
def insertByKey {α : Type} (key : α → String) (x : α) : List α → List α
  | [] => [x]
  | y :: ys => if dateLe (key x) (key y) then x :: y :: ys else y :: insertByKey key x ys

/-- Model of the stable JS `Array.prototype.sort` with the comparator
`(a, b) => new Date(key a) - new Date(key b)`. -/
def sortByKey {α : Type} (key : α → String) : List α → List α
  | [] => []
  | x :: xs => insertByKey key x (sortByKey key xs)

/-- Model of JS `Array.prototype.join('\n')`. -/
def joinNL : List String → String
  | [] => ""
  | [s] => s
  | s :: rest => s ++ "\n" ++ joinNL rest

/-- Decimal digit characters, for rendering numbers into messages. -/
def digChar : Nat → Char
  | 0 => '0' | 1 => '1' | 2 => '2' | 3 => '3' | 4 => '4'
  | 5 => '5' | 6 => '6' | 7 => '7' | 8 => '8' | _ => '9'

/-- Fuel-driven decimal rendering (fuel keeps the recursion structural so
that concrete evaluation reduces in the kernel). -/
def natDigsAux : Nat → Nat → List Char → List Char
  | 0, _, acc => acc
  | _ + 1, 0, acc => acc
  | f + 1, n + 1, acc => natDigsAux f ((n + 1) / 10) (digChar ((n + 1) % 10) :: acc)

/-- The decimal digit string of a natural number (model of JS number →
string interpolation). -/
def natDigs (n : Nat) : List Char :=
  if n = 0 then ['0'] else natDigsAux n n []

/-- String form of `natDigs`. -/
def natStr (n : Nat) : String :=
  String.mk (natDigs n)

/-- Splitting a character list at every occurrence of a separator character
(model of JS `String.prototype.split` with a single-character separator). -/
def splitOnChar (sep : Char) : List Char → List (List Char)
  | [] => [[]]
  | c :: rest =>
    let r := splitOnChar sep rest
    if c = sep then [] :: r
    else
      match r with
      | s :: ss => (c :: s) :: ss
      | [] => [[c]]

/-- Model of JS `String.prototype.padStart(2, '0')`. -/
def padStart2 (l : List Char) : List Char :=
  if l.length ≥ 2 then l
  else if l.length = 1 then '0' :: l
  else ['0', '0']

/-! ## Data model

One structure per record kind.  The source reads some fields under several
aliases (`patientNumber`/`patient_number`, `minStock`/`minimumStock`); the
aliases denote the same stored datum and collapse to one model field. -/

structure Patient where
  id : Nat
  name : String := ""
  dob : String := ""
  phone : String := ""
  email : String := ""
  patientNumber : Option Nat := none
deriving DecidableEq, Repr

structure Appt where
  id : Nat
  patientName : String := ""
  date : String := ""
  time : String := ""
  type : String := ""
  duration : Nat := 0
  notes : String := ""
  status : String := ""
deriving DecidableEq, Repr

structure Deadline where
  id : Nat
  title : String := ""
  date : String := ""
  dueDate : String := ""
  priority : String := ""
  description : String := ""
deriving DecidableEq, Repr

structure InvItem where
  id : Nat
  name : String := ""
  category : String := ""
  quantity : Option Nat := none
  minStock : Option Nat := none
  unit : String := ""
deriving DecidableEq, Repr

structure PNote where
  patientId : Nat
  note : String := ""
  author : String := ""
deriving DecidableEq, Repr

/-- `d.date || d.dueDate`, the date under which a deadline is displayed. -/
def Deadline.dispDate (d : Deadline) : String :=
  if d.date = "" then d.dueDate else d.date

/-- `p.patientNumber || p.patient_number || p.id`, the number shown for a patient. -/
def Patient.dispNumber (p : Patient) : Nat :=
  match p.patientNumber with
  | some n => if n = 0 then p.id else n
  | none => p.id

/-- `i.quantity || 0`. -/
def InvItem.effQuantity (i : InvItem) : Nat :=
  jsOrN i.quantity 0

/-- `i.minStock || 10` (also `i.minStock || i.minimumStock || 10`). -/
def InvItem.effMinStock (i : InvItem) : Nat :=
  jsOrN i.minStock 10

/-! ### Records as built by the create handlers -/

structure NewPatient where
  name : String
  dob : String
  phone : String
  email : String
deriving DecidableEq, Repr

structure NewAppt where
  patientName : String
  date : String
  time : String
  type : String
  duration : Nat
  notes : String
  status : String
deriving DecidableEq, Repr

structure NewDeadline where
  title : String
  date : String
  dueDate : String
  priority : String
  description : String
deriving DecidableEq, Repr

structure NewInvItem where
  name : String
  category : String
  quantity : Nat
  minStock : Nat
  unit : String
deriving DecidableEq, Repr

/-! ### Partial update records as built by the update handlers -/

structure PatientUpd where
  name : Option String := none
  dob : Option String := none
  phone : Option String := none
  email : Option String := none
deriving DecidableEq, Repr

structure ApptUpd where
  date : Option String := none
  time : Option String := none
  type : Option String := none
  status : Option String := none
  notes : Option String := none
deriving DecidableEq, Repr

structure DeadlineUpd where
  title : Option String := none
  date : Option String := none
  dueDate : Option String := none
  priority : Option String := none
  description : Option String := none
deriving DecidableEq, Repr

structure InvItemUpd where
  name : Option String := none
  quantity : Option Nat := none
  minStock : Option Nat := none
  category : Option String := none
  unit : Option String := none
deriving DecidableEq, Repr

/-! ## Persistence collaborator

Modelled from the spec: the persistence layer (`window.db`) is an external
collaborator; per the spec's external-interface section, `createK` assigns
a fresh id and returns the stored record, `updateK(id, partial)` replaces
exactly the supplied fields of the record with that id, `deleteK(id)`
removes the record with that id, `getAllK(limit, offset)` returns the
stored collection (up to `limit`), `searchPatients` is a text search over
patient names, and `getLowStock` applies the collaborator's own threshold
rule (quantity at or below the minimum-stock threshold, default 10). -/

structure Db where
  patients : List Patient := []
  appointments : List Appt := []
  deadlines : List Deadline := []
  inventory : List InvItem := []
  notes : List PNote := []
  nextId : Nat := 1
deriving DecidableEq, Repr

/-- Modelled from the spec: `createPatient` assigns the next id (and the
human-facing sequential patient number) and stores the record. -/
def Db.createPatient (db : Db) (r : NewPatient) : Patient × Db :=
  let p : Patient :=
    { id := db.nextId, name := r.name, dob := r.dob, phone := r.phone,
      email := r.email, patientNumber := some db.nextId }
  (p, { db with patients := db.patients ++ [p], nextId := db.nextId + 1 })

/-- Modelled from the spec: `createAppointment` assigns the next id and
stores the record. -/
def Db.createAppointment (db : Db) (r : NewAppt) : Appt × Db :=
  let a : Appt :=
    { id := db.nextId, patientName := r.patientName, date := r.date,
      time := r.time, type := r.type, duration := r.duration,
      notes := r.notes, status := r.status }
  (a, { db with appointments := db.appointments ++ [a], nextId := db.nextId + 1 })

/-- Modelled from the spec: `createDeadline` assigns the next id and stores
the record. -/
def Db.createDeadline (db : Db) (r : NewDeadline) : Deadline × Db :=
  let d : Deadline :=
    { id := db.nextId, title := r.title, date := r.date, dueDate := r.dueDate,
      priority := r.priority, description := r.description }
  (d, { db with deadlines := db.deadlines ++ [d], nextId := db.nextId + 1 })

/-- Modelled from the spec: `createInventoryItem` assigns the next id and
stores the record. -/
def Db.createInventoryItem (db : Db) (r : NewInvItem) : InvItem × Db :=
  let i : InvItem :=
    { id := db.nextId, name := r.name, category := r.category,
      quantity := some r.quantity, minStock := some r.minStock, unit := r.unit }
  (i, { db with inventory := db.inventory ++ [i], nextId := db.nextId + 1 })

/-- Merging a partial patient record over a stored record (spec: only
supplied fields change). -/
def Patient.merge (p : Patient) (u : PatientUpd) : Patient :=
  { p with name := u.name.getD p.name, dob := u.dob.getD p.dob,
           phone := u.phone.getD p.phone, email := u.email.getD p.email }

def Appt.merge (a : Appt) (u : ApptUpd) : Appt :=
  { a with date := u.date.getD a.date, time := u.time.getD a.time,
           type := u.type.getD a.type, status := u.status.getD a.status,
           notes := u.notes.getD a.notes }

def Deadline.merge (d : Deadline) (u : DeadlineUpd) : Deadline :=
  { d with title := u.title.getD d.title, date := u.date.getD d.date,
           dueDate := u.dueDate.getD d.dueDate,
           priority := u.priority.getD d.priority,
           description := u.description.getD d.description }

def InvItem.merge (i : InvItem) (u : InvItemUpd) : InvItem :=
  { i with name := u.name.getD i.name,
           quantity := match u.quantity with | some q => some q | none => i.quantity,
           minStock := match u.minStock with | some m => some m | none => i.minStock,
           category := u.category.getD i.category, unit := u.unit.getD i.unit }

/-- Modelled from the spec: `updatePatient(id, partial)`. -/
def Db.updatePatient (db : Db) (id : Nat) (u : PatientUpd) : Db :=
  { db with patients := db.patients.map (fun p => if p.id = id then p.merge u else p) }

/-- Modelled from the spec: `updateAppointment(id, partial)`. -/
def Db.updateAppointment (db : Db) (id : Nat) (u : ApptUpd) : Db :=
  { db with appointments := db.appointments.map (fun a => if a.id = id then a.merge u else a) }

/-- Modelled from the spec: `updateDeadline(id, partial)`. -/
def Db.updateDeadline (db : Db) (id : Nat) (u : DeadlineUpd) : Db :=
  { db with deadlines := db.deadlines.map (fun d => if d.id = id then d.merge u else d) }

/-- Modelled from the spec: `updateInventoryItem(id, partial)`. -/
def Db.updateInventoryItem (db : Db) (id : Nat) (u : InvItemUpd) : Db :=
  { db with inventory := db.inventory.map (fun i => if i.id = id then i.merge u else i) }

/-- Modelled from the spec: `deletePatient(id)`. -/
def Db.deletePatient (db : Db) (id : Nat) : Db :=
  { db with patients := db.patients.filter (fun p => p.id ≠ id) }

/-- Modelled from the spec: `deleteAppointment(id)`. -/
def Db.deleteAppointment (db : Db) (id : Nat) : Db :=
  { db with appointments := db.appointments.filter (fun a => a.id ≠ id) }

/-- Modelled from the spec: `deleteDeadline(id)`. -/
def Db.deleteDeadline (db : Db) (id : Nat) : Db :=
  { db with deadlines := db.deadlines.filter (fun d => d.id ≠ id) }

/-- Modelled from the spec: `deleteInventoryItem(id)`. -/
def Db.deleteInventoryItem (db : Db) (id : Nat) : Db :=
  { db with inventory := db.inventory.filter (fun i => i.id ≠ id) }

/-- Modelled from the spec: `searchPatients(query, limit, offset)` is a
case-insensitive text search over patient names. -/
def Db.searchPatients (db : Db) (q : String) (limit : Nat) : List Patient :=
  (db.patients.filter (fun p => containsCI p.name q)).take limit

/-- Modelled from the spec: the `getPatient({patientNumber})` lookup used by
the appointment-creation handler. -/
def Db.getPatientByNumber (db : Db) (n : Nat) : Option Patient :=
  db.patients.find? (fun p => p.patientNumber = some n)

/-- Modelled from the spec: `getLowStock()` — the collaborator's own
low-stock query (quantity at or below the minimum-stock threshold). -/
def Db.getLowStock (db : Db) : List InvItem :=
  db.inventory.filter (fun i => i.effQuantity ≤ i.effMinStock)

/-- Modelled from the spec: `getAppointmentsByDate(date)`. -/
def Db.getAppointmentsByDate (db : Db) (date : String) : List Appt :=
  db.appointments.filter (fun a => a.date = date)

/-- Modelled from the spec: the patient-notes sub-resource. -/
def Db.addPatientNote (db : Db) (id : Nat) (text author : String) : PNote × Db :=
  let n : PNote := { patientId := id, note := text, author := author }
  (n, { db with notes := db.notes ++ [n] })

def Db.getPatientNotes (db : Db) (id : Nat) : List PNote :=
  db.notes.filter (fun n => n.patientId = id)

/-! ## Application state

`DataCache` and the module-level view state of src/app.js, together with
the external collaborator and its reachability. -/

structure Cache where
  patients : List Patient := []
  appointments : List Appt := []
  deadlines : List Deadline := []
  inventory : List InvItem := []
deriving DecidableEq, Repr

structure Sys where
  db : Db := {}
  connected : Bool := true
  cache : Cache := {}
  today : String := ""
  selectedCalendarDate : String := ""
deriving DecidableEq, Repr

/-! ## The `Database` wrapper (src/app.js lines 29–186) -/

namespace Database

/-- `Database.isConnected` (window.db present with a loadAll function). -/
def isConnected (sys : Sys) : Bool :=
  sys.connected

/-- `Database.getPatients`: `getAllPatients(1000, 0)`, empty on
disconnection or error. -/
def getPatients (sys : Sys) : List Patient :=
  if isConnected sys then sys.db.patients.take 1000 else []

def getAppointments (sys : Sys) : List Appt :=
  if isConnected sys then sys.db.appointments.take 1000 else []

def getDeadlines (sys : Sys) : List Deadline :=
  if isConnected sys then sys.db.deadlines.take 1000 else []

def getInventory (sys : Sys) : List InvItem :=
  if isConnected sys then sys.db.inventory.take 1000 else []

def getLowStock (sys : Sys) : List InvItem :=
  if isConnected sys then sys.db.getLowStock else []

def searchPatients (sys : Sys) (q : String) : List Patient :=
  if isConnected sys then sys.db.searchPatients q 20 else []

/-- `Database.createPatient`: throws `Error('Database not connected')` when
the collaborator is unreachable. -/
def createPatient (sys : Sys) (r : NewPatient) : Except String (Patient × Db) :=
  if isConnected sys then .ok (sys.db.createPatient r) else .error "Database not connected"

def createAppointment (sys : Sys) (r : NewAppt) : Except String (Appt × Db) :=
  if isConnected sys then .ok (sys.db.createAppointment r) else .error "Database not connected"

def createDeadline (sys : Sys) (r : NewDeadline) : Except String (Deadline × Db) :=
  if isConnected sys then .ok (sys.db.createDeadline r) else .error "Database not connected"

def createInventoryItem (sys : Sys) (r : NewInvItem) : Except String (InvItem × Db) :=
  if isConnected sys then .ok (sys.db.createInventoryItem r) else .error "Database not connected"

def updatePatient (sys : Sys) (id : Nat) (u : PatientUpd) : Except String Db :=
  if isConnected sys then .ok (sys.db.updatePatient id u) else .error "Database not connected"

def updateAppointment (sys : Sys) (id : Nat) (u : ApptUpd) : Except String Db :=
  if isConnected sys then .ok (sys.db.updateAppointment id u) else .error "Database not connected"

def updateDeadline (sys : Sys) (id : Nat) (u : DeadlineUpd) : Except String Db :=
  if isConnected sys then .ok (sys.db.updateDeadline id u) else .error "Database not connected"

def updateInventoryItem (sys : Sys) (id : Nat) (u : InvItemUpd) : Except String Db :=
  if isConnected sys then .ok (sys.db.updateInventoryItem id u) else .error "Database not connected"

def deletePatient (sys : Sys) (id : Nat) : Except String Db :=
  if isConnected sys then .ok (sys.db.deletePatient id) else .error "Database not connected"

def deleteAppointment (sys : Sys) (id : Nat) : Except String Db :=
  if isConnected sys then .ok (sys.db.deleteAppointment id) else .error "Database not connected"

def deleteDeadline (sys : Sys) (id : Nat) : Except String Db :=
  if isConnected sys then .ok (sys.db.deleteDeadline id) else .error "Database not connected"

def deleteInventoryItem (sys : Sys) (id : Nat) : Except String Db :=
  if isConnected sys then .ok (sys.db.deleteInventoryItem id) else .error "Database not connected"

end Database

/-! ## UI helpers and view-refresh functions -/

/-- `UI.formatDate`: `toLocaleDateString('en-GB', {day:'2-digit',
month:'2-digit', year:'numeric'})`, i.e. `YYYY-MM-DD` renders as
`DD/MM/YYYY`.  Non-ISO input has environment-dependent output in JS and is
modelled as returned unchanged. -/
def formatDate (s : String) : String :=
  if s = "" then "-"
  else
    match splitOnChar '-' s.data with
    | [y, m, d] => String.mk (d ++ '/' :: m ++ '/' :: y)
    | _ => s

/-- `loadPatients` (lines 561–593): re-fetches and replaces the cached
patient collection; the DOM table paint is dropped. -/
def loadPatients (sys : Sys) : Sys :=
  { sys with cache := { sys.cache with patients := Database.getPatients sys } }

/-- `loadInventory` (lines 923–964). -/
def loadInventory (sys : Sys) : Sys :=
  { sys with cache := { sys.cache with inventory := Database.getInventory sys } }

/-- `loadStats` (lines 285–321): refreshes the patient, appointment and
deadline caches and repaints the dashboard counters. -/
def loadStats (sys : Sys) : Sys :=
  { sys with cache :=
      { sys.cache with
          patients := Database.getPatients sys,
          appointments := Database.getAppointments sys,
          deadlines := Database.getDeadlines sys } }

/-- `renderCalendar`: pure DOM painting, no state change. -/
def renderCalendar (sys : Sys) : Sys :=
  sys

/-- `showDateSchedule(date)` (lines 328–…): records the selected date and
repaints the schedule panel. -/
def showDateSchedule (sys : Sys) (date : String) : Sys :=
  { sys with selectedCalendarDate := date }

/-- `loadTodaySchedule` (lines 323–326). -/
def loadTodaySchedule (sys : Sys) : Sys :=
  showDateSchedule sys sys.today

/-- `loadDashboard` (lines 277–283). -/
def loadDashboard (sys : Sys) : Sys :=
  loadTodaySchedule (renderCalendar (loadStats sys))

/-! ## Tool parameters and outcomes -/

/-- The loosely-typed parameter object handed to `ToolExecutor.execute`.
`none` models an absent (`undefined`) key. -/
structure Params where
  patientName : Option String := none
  patient : Option String := none
  name : Option String := none
  itemName : Option String := none
  patientDob : Option String := none
  dob : Option String := none
  phone : Option String := none
  email : Option String := none
  date : Option String := none
  time : Option String := none
  type : Option String := none
  notes : Option String := none
  status : Option String := none
  title : Option String := none
  oldTitle : Option String := none
  description : Option String := none
  priority : Option String := none
  dueDate : Option String := none
  query : Option String := none
  note : Option String := none
  category : Option String := none
  unit : Option String := none
  response : Option String := none
  message : Option String := none
  answer : Option String := none
  newName : Option String := none
  newDob : Option String := none
  newPhone : Option String := none
  newEmail : Option String := none
  newDate : Option String := none
  newTime : Option String := none
  newType : Option String := none
  newStatus : Option String := none
  newNotes : Option String := none
  newTitle : Option String := none
  newPriority : Option String := none
  newDescription : Option String := none
  newCategory : Option String := none
  newUnit : Option String := none
  patientNumber : Option Nat := none
  duration : Option Nat := none
  quantity : Option Nat := none
  minStock : Option Nat := none
  minimumStock : Option Nat := none
  newQuantity : Option Nat := none
  newMinStock : Option Nat := none
  lowStock : Option Bool := none
deriving DecidableEq, Repr

/-- The `data` payload attached to an outcome. -/
inductive RData where
  | none
  | patient (p : Patient)
  | patients (l : List Patient)
  | appt (a : Appt)
  | appts (l : List Appt)
  | deadline (d : Deadline)
  | deadlines (l : List Deadline)
  | item (i : InvItem)
  | items (l : List InvItem)
  | pnote (n : PNote)
  | pnotes (l : List PNote)
  | patientUpd (id : Nat) (u : PatientUpd)
  | apptUpd (id : Nat) (u : ApptUpd)
  | deadlineUpd (id : Nat) (u : DeadlineUpd)
  | itemUpd (id : Nat) (u : InvItemUpd)
  | itemId (id : Nat)
deriving DecidableEq, Repr

/-- The structured `{success, message, data?}` result of executing an action. -/
structure Outcome where
  success : Bool
  message : String
  data : RData := RData.none
deriving DecidableEq, Repr

/-- `if (params.x) updates.f = params.x`: the update field is set exactly
when the parameter is truthy. -/
def setIf (o : Option String) : Option String :=
  match o with
  | some s => if s = "" then none else some s
  | none => none

/-- Template interpolation of a possibly-undefined string (JS renders
`undefined` as the text "undefined"). -/
def showOptS : Option String → String
  | none => "undefined"
  | some s => s

/-- Template interpolation of a possibly-undefined number. -/
def showOptN : Option Nat → String
  | none => "undefined"
  | some n => natStr n

/-- Template interpolation of `a || b` for two optional strings. -/
def showJsOr (a b : Option String) : String :=
  if truthyS a then a.getD "" else showOptS b

/-- `s || d` for a plain (possibly empty) record field. -/
def jsS (s d : String) : String :=
  if s = "" then d else s

/-- The priority emoji: `high` → 🔴, `low` → 🟢, otherwise 🟡. -/
def prioEmoji (p : String) : String :=
  if p = "high" then "🔴" else if p = "low" then "🟢" else "🟡"

/-- The `DD/MM/YYYY → YYYY-MM-DD` conversion performed by the
date-accepting handlers (lines 1271–1278, 1336–1342, 1692–1697,
1775–1780): split on `/`; when there are exactly three parts and the first
has at most two characters, rebuild as `YYYY-MM-DD` with zero-padding. -/
def convertSlashDate (s : String) : String :=
  if s = "" then s
  else if '/' ∈ s.data then
    match splitOnChar '/' s.data with
    | [d, m, y] =>
      if d.length ≤ 2 then String.mk (y ++ '-' :: (padStart2 m ++ '-' :: padStart2 d)) else s
    | _ => s
  else s

/-! ## ToolExecutor action handlers (lines 1103–2006) -/

/-- The patient-list entry line of `listPatients`. -/
def patientLine (p : Patient) : String :=
  "• #" ++ natStr p.dispNumber ++ " - " ++ p.name

/-- The appointment-list entry line of `listAppointments`. -/
def apptLine (a : Appt) : String :=
  "• " ++ formatDate a.date ++ " " ++ a.time ++ " - " ++ jsS a.patientName "Unknown"

/-- The deadline-list entry line of `listDeadlines`. -/
def deadlineLine (d : Deadline) : String :=
  prioEmoji d.priority ++ " " ++ formatDate d.dispDate ++ " - " ++ d.title

/-- The inventory-list entry line of `listInventoryItems`. -/
def invLine (i : InvItem) : String :=
  (if i.effQuantity ≤ i.effMinStock then "🔴" else "🟢") ++ " " ++ i.name
    ++ " - " ++ natStr i.effQuantity ++ " " ++ i.unit
    ++ " (min: " ++ natStr i.effMinStock ++ ")"

/-- The `\n... +k more` truncation suffix of the capped list handlers. -/
def moreSuffix (k : Nat) : String :=
  "\n... +" ++ natStr k ++ " more"

/-- The `sorted`/`upcoming` locals of `listAppointments`: appointments
sorted by date, keeping those on or after the start of the current day. -/
def upcomingAppts (sys : Sys) : List Appt :=
  (sortByKey (fun a => a.date) (Database.getAppointments sys)).filter
    (fun a => dateLe sys.today a.date)

/-- The `sorted`/`upcoming` locals of `listDeadlines`. -/
def upcomingDeadlines (sys : Sys) : List Deadline :=
  (sortByKey Deadline.dispDate (Database.getDeadlines sys)).filter
    (fun d => dateLe sys.today d.dispDate)

/-- The `filtered` local of `listInventoryItems`: the whole fetched
collection, or just its low-stock records when the `lowStock` parameter is
truthy. -/
def invShown (sys : Sys) (params : Params) : List InvItem :=
  if truthyB params.lowStock then
    (Database.getInventory sys).filter (fun i => i.effQuantity ≤ i.effMinStock)
  else Database.getInventory sys

namespace ToolExecutor

/-- `ToolExecutor.createPatient` (lines 1217–1244). -/
def createPatient (sys : Sys) (params : Params) : Outcome × Sys :=
  let patient : NewPatient :=
    { name := jsOrS params.patientName (jsOrS params.name ""),
      dob := jsOrS params.patientDob (jsOrS params.dob ""),
      phone := jsOrS params.phone "",
      email := jsOrS params.email "" }
  if patient.name = "" then
    ({ success := false, message := "❌ Patient name is required." }, sys)
  else
    match Database.createPatient sys patient with
    | .error e => ({ success := false, message := "❌ Failed to create patient: " ++ e }, sys)
    | .ok (result, db2) =>
      let sys2 := loadStats (loadPatients { sys with db := db2 })
      ({ success := true,
         message := "✅ Patient created successfully!\n\n📋 **Details:**\n• Patient #: "
           ++ natStr result.dispNumber ++ "\n• Name: " ++ patient.name
           ++ (if patient.dob ≠ "" then "\n• DOB: " ++ formatDate patient.dob else "")
           ++ (if patient.phone ≠ "" then "\n• Phone: " ++ patient.phone else "")
           ++ (if patient.email ≠ "" then "\n• Email: " ++ patient.email else ""),
         data := RData.patient result }, sys2)

/-- `ToolExecutor.createAppointment` (lines 1246–1330). -/
def createAppointment (sys : Sys) (params : Params) : Outcome × Sys :=
  let patientName0 := jsOrS params.patientName (jsOrS params.patient "")
  let lookup : Except Outcome String :=
    if truthyN params.patientNumber ∧ patientName0 = "" then
      (if Database.isConnected sys then
        match sys.db.getPatientByNumber (params.patientNumber.getD 0) with
        | some p => .ok p.name
        | none =>
          .error { success := false,
                   message := "❌ Patient #" ++ natStr (params.patientNumber.getD 0) ++ " not found." }
      else
        .error { success := false,
                 message := "❌ Could not find patient #" ++ natStr (params.patientNumber.getD 0) ++ "." })
    else .ok patientName0
  match lookup with
  | .error o => (o, sys)
  | .ok patientName =>
    let dateStr := convertSlashDate (jsOrS params.date "")
    let appointment : NewAppt :=
      { patientName := patientName, date := dateStr,
        time := jsOrS params.time "", type := jsOrS params.type "checkup",
        duration := jsOrN params.duration 30, notes := jsOrS params.notes "",
        status := jsOrS params.status "scheduled" }
    if appointment.patientName = "" then
      ({ success := false, message := "❌ Patient name or number is required." }, sys)
    else if appointment.date = "" then
      ({ success := false, message := "❌ Appointment date is required." }, sys)
    else
      match Database.createAppointment sys appointment with
      | .error e =>
        ({ success := false, message := "❌ Failed to schedule appointment: " ++ e }, sys)
      | .ok (result, db2) =>
        let sys2 := renderCalendar (loadStats { sys with db := db2 })
        let sys3 :=
          if sys2.selectedCalendarDate = dateStr then showDateSchedule sys2 dateStr
          else loadTodaySchedule sys2
        ({ success := true,
           message := "✅ Appointment scheduled successfully!\n\n📋 **Details:**\n• Patient: "
             ++ appointment.patientName ++ "\n• Date: " ++ formatDate dateStr
             ++ (if appointment.time ≠ "" then "\n• Time: " ++ appointment.time else "")
             ++ (if appointment.type ≠ "" then "\n• Type: " ++ appointment.type else "")
             ++ (if appointment.duration ≠ 0 then "\n• Duration: " ++ natStr appointment.duration ++ " min" else "")
             ++ (if appointment.notes ≠ "" then "\n• Notes: " ++ appointment.notes else "")
             ++ "\n\n💡 Click on the date in the calendar to view it.",
           data := RData.appt result }, sys3)

/-- `ToolExecutor.createDeadline` (lines 1332–1384). -/
def createDeadline (sys : Sys) (params : Params) : Outcome × Sys :=
  let dateStr := convertSlashDate (jsOrS params.date (jsOrS params.dueDate ""))
  let deadline : NewDeadline :=
    { title := jsOrS params.title (jsOrS params.description ""),
      date := dateStr, dueDate := dateStr,
      priority := jsOrS params.priority "medium",
      description := jsOrS params.description "" }
  if deadline.title = "" then
    ({ success := false, message := "❌ Deadline title is required." }, sys)
  else
    match Database.createDeadline sys deadline with
    | .error e => ({ success := false, message := "❌ Failed to create deadline: " ++ e }, sys)
    | .ok (result, db2) =>
      let sys2 := renderCalendar (loadStats { sys with db := db2 })
      let sys3 :=
        if sys2.selectedCalendarDate = dateStr then showDateSchedule sys2 dateStr
        else loadTodaySchedule sys2
      ({ success := true,
         message := "✅ Deadline created successfully!\n\n📋 **Details:**\n• Title: "
           ++ deadline.title ++ "\n• Due: " ++ formatDate dateStr
           ++ "\n• Priority: " ++ prioEmoji deadline.priority ++ " " ++ deadline.priority
           ++ (if deadline.description ≠ "" then "\n• Description: " ++ deadline.description else "")
           ++ "\n\n💡 Click on the date in the calendar to view it.",
         data := RData.deadline result }, sys3)

/-- `ToolExecutor.addPatientNote` (lines 1386–1403). -/
def addPatientNote (sys : Sys) (params : Params) : Outcome × Sys :=
  let patients := Database.searchPatients sys (jsOrS params.patientName "")
  match patients with
  | [] =>
    ({ success := false,
       message := "❌ Patient \"" ++ showOptS params.patientName ++ "\" not found." }, sys)
  | patient :: _ =>
    if Database.isConnected sys then
      let (result, db2) := sys.db.addPatientNote patient.id (jsOrS params.note "") "admin"
      ({ success := true,
         message := "✅ Note added successfully!\n\n📋 **Details:**\n• Patient: " ++ patient.name
           ++ "\n• Note: " ++ jsOrS params.note "(empty)",
         data := RData.pnote result }, { sys with db := db2 })
    else
      ({ success := false, message := "❌ Failed to add note: Database not connected" }, sys)

/-- `ToolExecutor.getPatientNotes` (lines 1405–1429). -/
def getPatientNotes (sys : Sys) (params : Params) : Outcome × Sys :=
  let patients := Database.searchPatients sys (jsOrS params.patientName "")
  match patients with
  | [] =>
    ({ success := false,
       message := "❌ Patient \"" ++ showOptS params.patientName ++ "\" not found." }, sys)
  | patient :: _ =>
    if Database.isConnected sys then
      let notes := sys.db.getPatientNotes patient.id
      if notes = [] then
        ({ success := true, message := "📋 **" ++ patient.name ++ "** - No notes found." }, sys)
      else
        ({ success := true,
           message := "📋 **Notes for " ++ patient.name ++ ":**\n"
             ++ joinNL (notes.map (fun n => "• " ++ n.note)),
           data := RData.pnotes notes }, sys)
    else
      ({ success := false, message := "❌ Failed to get notes: Database not connected" }, sys)

/-- `ToolExecutor.listPatients` (lines 1431–1451). -/
def listPatients (sys : Sys) : Outcome × Sys :=
  let patients := Database.getPatients sys
  if patients = [] then
    ({ success := true, message := "📋 **Patients:** None found." }, sys)
  else
    let list := joinNL ((patients.take 10).map patientLine)
    let more :=
      if patients.length > 10 then moreSuffix (patients.length - 10) else ""
    ({ success := true,
       message := "📋 **Patients (" ++ natStr patients.length ++ "):**\n" ++ list ++ more,
       data := RData.patients patients }, sys)

/-- `ToolExecutor.listAppointments` (lines 1453–1480). -/
def listAppointments (sys : Sys) : Outcome × Sys :=
  let appointments := Database.getAppointments sys
  if appointments = [] then
    ({ success := true, message := "📅 **Appointments:** None scheduled." }, sys)
  else
    let upcoming := upcomingAppts sys
    if upcoming = [] then
      ({ success := true, message := "📅 **Appointments:** No upcoming appointments." }, sys)
    else
      let list := joinNL ((upcoming.take 8).map apptLine)
      let more :=
        if upcoming.length > 8 then moreSuffix (upcoming.length - 8) else ""
      ({ success := true,
         message := "📅 **Upcoming Appointments (" ++ natStr upcoming.length ++ "):**\n" ++ list ++ more,
         data := RData.appts appointments }, sys)

/-- `ToolExecutor.listDeadlines` (lines 1482–1509).  Note: unlike the other
three list handlers, it builds no `more` suffix for entries beyond the cap
of 8. -/
def listDeadlines (sys : Sys) : Outcome × Sys :=
  let deadlines := Database.getDeadlines sys
  if deadlines = [] then
    ({ success := true, message := "⏰ **Deadlines:** None set." }, sys)
  else
    let upcoming := upcomingDeadlines sys
    if upcoming = [] then
      ({ success := true, message := "⏰ **Deadlines:** No upcoming deadlines." }, sys)
    else
      let list := joinNL ((upcoming.take 8).map deadlineLine)
      ({ success := true,
         message := "⏰ **Upcoming Deadlines (" ++ natStr upcoming.length ++ "):**\n" ++ list,
         data := RData.deadlines deadlines }, sys)

/-- `ToolExecutor.searchPatients` (lines 1511–1538). -/
def searchPatients (sys : Sys) (params : Params) : Outcome × Sys :=
  let query := jsOrS params.query (jsOrS params.patientName "")
  let patients := Database.searchPatients sys query
  match patients with
  | [] =>
    ({ success := true, message := "🔍 **Search \"" ++ query ++ "\":** No patients found." }, sys)
  | [p] =>
    ({ success := true,
       message := "🔍 **Found Patient:**\n• Name: " ++ p.name
         ++ (if p.dob ≠ "" then "\n• DOB: " ++ formatDate p.dob else "")
         ++ (if p.phone ≠ "" then "\n• Phone: " ++ p.phone else "")
         ++ (if p.email ≠ "" then "\n• Email: " ++ p.email else ""),
       data := RData.patients patients }, sys)
  | _ =>
    let list := joinNL (patients.map
      (fun p => "• " ++ p.name ++ (if p.dob ≠ "" then " (" ++ formatDate p.dob ++ ")" else "")))
    ({ success := true,
       message := "🔍 **Found " ++ natStr patients.length ++ " patients for \"" ++ query ++ "\":**\n" ++ list,
       data := RData.patients patients }, sys)

/-- The resolution predicate of `deleteAppointment`/`updateAppointment`:
case-insensitive substring match on the patient name, and, when a date
parameter is truthy, equality on the date. -/
def apptMatches (params : Params) (a : Appt) : Bool :=
  containsCI a.patientName (jsOrS params.patientName "")
    && (if truthyS params.date then a.date = params.date.getD "" else true)

/-- `ToolExecutor.deleteAppointment` (lines 1540–1561). -/
def deleteAppointment (sys : Sys) (params : Params) : Outcome × Sys :=
  let appointments := Database.getAppointments sys
  match appointments.find? (apptMatches params) with
  | none =>
    ({ success := false,
       message := "❌ Appointment not found for \"" ++ showJsOr params.patientName (some "unknown") ++ "\"." }, sys)
  | some m =>
    match Database.deleteAppointment sys m.id with
    | .error e => ({ success := false, message := "❌ Failed to delete appointment: " ++ e }, sys)
    | .ok db2 =>
      let sys2 := loadDashboard { sys with db := db2 }
      ({ success := true,
         message := "✅ Appointment deleted successfully!\n\n📋 **Deleted:**\n• Patient: "
           ++ m.patientName ++ "\n• Date: " ++ formatDate m.date
           ++ (if m.time ≠ "" then "\n• Time: " ++ m.time else "") }, sys2)

/-- `ToolExecutor.deleteDeadline` (lines 1563–1583). -/
def deleteDeadline (sys : Sys) (params : Params) : Outcome × Sys :=
  let deadlines := Database.getDeadlines sys
  match deadlines.find? (fun d => containsCI d.title (jsOrS params.title "")) with
  | none =>
    ({ success := false,
       message := "❌ Deadline \"" ++ showJsOr params.title (some "unknown") ++ "\" not found." }, sys)
  | some m =>
    match Database.deleteDeadline sys m.id with
    | .error e => ({ success := false, message := "❌ Failed to delete deadline: " ++ e }, sys)
    | .ok db2 =>
      let sys2 := loadDashboard { sys with db := db2 }
      ({ success := true,
         message := "✅ Deadline deleted successfully!\n\n📋 **Deleted:**\n• Title: "
           ++ m.title ++ "\n• Due: " ++ formatDate m.dispDate }, sys2)

/-- `ToolExecutor.updatePatient` (lines 1586–1610). -/
def updatePatient (sys : Sys) (params : Params) : Outcome × Sys :=
  let patients := Database.searchPatients sys (jsOrS params.patientName (jsOrS params.name ""))
  match patients with
  | [] =>
    ({ success := false,
       message := "❌ Patient \"" ++ showJsOr params.patientName params.name ++ "\" not found." }, sys)
  | patient :: _ =>
    let updates : PatientUpd :=
      { name := setIf params.newName, dob := setIf params.newDob,
        phone := setIf params.newPhone, email := setIf params.newEmail }
    match Database.updatePatient sys patient.id updates with
    | .error e => ({ success := false, message := "❌ Failed to update patient: " ++ e }, sys)
    | .ok db2 =>
      let sys2 := loadPatients { sys with db := db2 }
      ({ success := true,
         message := "✅ Patient updated successfully!\n\n📋 **Updated:**\n• Name: "
           ++ jsOrS updates.name patient.name
           ++ (match updates.dob with
               | some d => "\n• DOB: " ++ formatDate d
               | none => "")
           ++ (match updates.phone with
               | some ph => "\n• Phone: " ++ ph
               | none => ""),
         data := RData.patientUpd patient.id updates }, sys2)

/-- `ToolExecutor.deletePatient` (lines 1612–1630). -/
def deletePatient (sys : Sys) (params : Params) : Outcome × Sys :=
  let patients := Database.searchPatients sys (jsOrS params.patientName (jsOrS params.name ""))
  match patients with
  | [] =>
    ({ success := false,
       message := "❌ Patient \"" ++ showJsOr params.patientName params.name ++ "\" not found." }, sys)
  | patient :: _ =>
    match Database.deletePatient sys patient.id with
    | .error e => ({ success := false, message := "❌ Failed to delete patient: " ++ e }, sys)
    | .ok db2 =>
      let sys2 := loadStats (loadPatients { sys with db := db2 })
      ({ success := true,
         message := "✅ Patient deleted successfully!\n\n📋 **Deleted:**\n• Name: " ++ patient.name
           ++ (if patient.dob ≠ "" then "\n• DOB: " ++ formatDate patient.dob else "") }, sys2)

/-- `ToolExecutor.getPatient` (lines 1632–1655). -/
def getPatient (sys : Sys) (params : Params) : Outcome × Sys :=
  let patient? : Except String (Option Patient) :=
    if truthyN params.patientNumber then
      (if Database.isConnected sys then
        .ok (sys.db.getPatientByNumber (params.patientNumber.getD 0))
      else .error "Database not connected")
    else if truthyS params.patientName then
      .ok (Database.searchPatients sys (params.patientName.getD "")).head?
    else .ok none
  match patient? with
  | .error e => ({ success := false, message := "❌ Failed to get patient: " ++ e }, sys)
  | .ok none => ({ success := false, message := "❌ Patient not found." }, sys)
  | .ok (some p) =>
    ({ success := true,
       message := "📋 **Patient Details:**\n• Name: " ++ p.name
         ++ (if p.dob ≠ "" then "\n• DOB: " ++ formatDate p.dob else "")
         ++ (if p.phone ≠ "" then "\n• Phone: " ++ p.phone else "")
         ++ (if p.email ≠ "" then "\n• Email: " ++ p.email else "")
         ++ (if truthyN p.patientNumber then "\n• Patient #: " ++ natStr (p.patientNumber.getD 0) else ""),
       data := RData.patient p }, sys)

/-- `ToolExecutor.updateAppointment` (lines 1658–1687). -/
def updateAppointment (sys : Sys) (params : Params) : Outcome × Sys :=
  let appointments := Database.getAppointments sys
  match appointments.find? (apptMatches params) with
  | none => ({ success := false, message := "❌ Appointment not found." }, sys)
  | some m =>
    let updates : ApptUpd :=
      { date := setIf params.newDate, time := setIf params.newTime,
        type := setIf params.newType, status := setIf params.newStatus,
        notes := setIf params.newNotes }
    match Database.updateAppointment sys m.id updates with
    | .error e => ({ success := false, message := "❌ Failed to update appointment: " ++ e }, sys)
    | .ok db2 =>
      let sys2 := loadDashboard { sys with db := db2 }
      ({ success := true,
         message := "✅ Appointment updated successfully!\n\n📋 **Updated:**\n• Patient: "
           ++ m.patientName ++ "\n• Date: "
           ++ (match updates.date with
               | some d => formatDate d
               | none => formatDate m.date)
           ++ (match updates.time with
               | some t => "\n• Time: " ++ t
               | none => if m.time ≠ "" then "\n• Time: " ++ m.time else ""),
         data := RData.apptUpd m.id updates }, sys2)

/-- `ToolExecutor.getAppointmentsByDate` (lines 1689–1718). -/
def getAppointmentsByDate (sys : Sys) (params : Params) : Outcome × Sys :=
  let dateStr := convertSlashDate (jsOrS params.date "")
  if Database.isConnected sys then
    let appointments := sys.db.getAppointmentsByDate dateStr
    if appointments = [] then
      ({ success := true,
         message := "📅 **Appointments for " ++ formatDate dateStr ++ ":** None scheduled." }, sys)
    else
      let list := joinNL (appointments.map
        (fun a => "• " ++ jsS a.time "All day" ++ " - " ++ jsS a.patientName "Unknown"
          ++ (if a.type ≠ "" then " (" ++ a.type ++ ")" else "")))
      ({ success := true,
         message := "📅 **Appointments for " ++ formatDate dateStr ++ " ("
           ++ natStr appointments.length ++ "):**\n" ++ list,
         data := RData.appts appointments }, sys)
  else
    ({ success := false, message := "❌ Failed to get appointments: Database not connected" }, sys)

/-- `ToolExecutor.updateDeadline` (lines 1721–1748).  The partial record it
sends to the persistence layer sets `date` (when `newDate` is supplied) but
never `dueDate`. -/
def updateDeadline (sys : Sys) (params : Params) : Outcome × Sys :=
  let deadlines := Database.getDeadlines sys
  match deadlines.find? (fun d => containsCI d.title (jsOrS params.title (jsOrS params.oldTitle ""))) with
  | none =>
    ({ success := false,
       message := "❌ Deadline \"" ++ showJsOr params.title params.oldTitle ++ "\" not found." }, sys)
  | some m =>
    let updates : DeadlineUpd :=
      { title := setIf params.newTitle, date := setIf params.newDate,
        priority := setIf params.newPriority, description := setIf params.newDescription,
        dueDate := none }
    match Database.updateDeadline sys m.id updates with
    | .error e => ({ success := false, message := "❌ Failed to update deadline: " ++ e }, sys)
    | .ok db2 =>
      let sys2 := loadDashboard { sys with db := db2 }
      ({ success := true,
         message := "✅ Deadline updated successfully!\n\n📋 **Updated:**\n• Title: "
           ++ jsOrS updates.title m.title ++ "\n• Due: "
           ++ (match updates.date with
               | some d => formatDate d
               | none => formatDate m.dispDate),
         data := RData.deadlineUpd m.id updates }, sys2)

/-- `ToolExecutor.getDeadlineDetails` (lines 1750–1770). -/
def getDeadlineDetails (sys : Sys) (params : Params) : Outcome × Sys :=
  let deadlines := Database.getDeadlines sys
  match deadlines.find? (fun d => containsCI d.title (jsOrS params.title "")) with
  | none =>
    ({ success := false,
       message := "❌ Deadline \"" ++ showOptS params.title ++ "\" not found." }, sys)
  | some m =>
    ({ success := true,
       message := "⏰ **Deadline Details:**\n• Title: " ++ m.title
         ++ "\n• Due: " ++ formatDate m.dispDate
         ++ "\n• Priority: " ++ prioEmoji m.priority ++ " " ++ jsS m.priority "medium"
         ++ (if m.description ≠ "" then "\n• Description: " ++ m.description else ""),
       data := RData.deadline m }, sys)

/-- `ToolExecutor.getDeadlinesByDate` (lines 1772–1802). -/
def getDeadlinesByDate (sys : Sys) (params : Params) : Outcome × Sys :=
  let dateStr := convertSlashDate (jsOrS params.date "")
  let deadlines := Database.getDeadlines sys
  let filtered := deadlines.filter (fun d => d.dispDate = dateStr)
  if filtered = [] then
    ({ success := true,
       message := "⏰ **Deadlines for " ++ formatDate dateStr ++ ":** None set." }, sys)
  else
    let list := joinNL (filtered.map
      (fun d => prioEmoji d.priority ++ " " ++ d.title
        ++ (if d.description ≠ "" then " - " ++ d.description else "")))
    ({ success := true,
       message := "⏰ **Deadlines for " ++ formatDate dateStr ++ " ("
         ++ natStr filtered.length ++ "):**\n" ++ list,
       data := RData.deadlines filtered }, sys)

/-- `ToolExecutor.searchDeadlines` (lines 1804–1830). -/
def searchDeadlines (sys : Sys) (params : Params) : Outcome × Sys :=
  let query := jsOrS params.query (jsOrS params.title "")
  let deadlines := Database.getDeadlines sys
  let filtered := deadlines.filter
    (fun d => containsCI d.title query || containsCI d.description query)
  if filtered = [] then
    ({ success := true, message := "🔍 **Search \"" ++ query ++ "\":** No deadlines found." }, sys)
  else
    let list := joinNL (filtered.map
      (fun d => prioEmoji d.priority ++ " " ++ formatDate d.dispDate ++ " - " ++ d.title))
    ({ success := true,
       message := "🔍 **Found " ++ natStr filtered.length ++ " deadlines for \"" ++ query ++ "\":**\n" ++ list,
       data := RData.deadlines filtered }, sys)

/-- `ToolExecutor.createInventoryItem` (lines 1833–1859). -/
def createInventoryItem (sys : Sys) (params : Params) : Outcome × Sys :=
  let item : NewInvItem :=
    { name := jsOrS params.name (jsOrS params.itemName ""),
      category := jsOrS params.category "consumables",
      quantity := params.quantity.getD 0,
      minStock := jsOrN (if truthyN params.minStock then params.minStock else params.minimumStock) 10,
      unit := jsOrS params.unit "" }
  if item.name = "" then
    ({ success := false, message := "❌ Item name is required." }, sys)
  else
    match Database.createInventoryItem sys item with
    | .error e => ({ success := false, message := "❌ Failed to create inventory item: " ++ e }, sys)
    | .ok (result, db2) =>
      let sys2 := loadStats (loadInventory { sys with db := db2 })
      ({ success := true,
         message := "✅ Inventory item created successfully!\n\n📋 **Details:**\n• Name: "
           ++ item.name ++ "\n• Category: " ++ item.category
           ++ "\n• Quantity: " ++ natStr item.quantity ++ " " ++ item.unit
           ++ "\n• Min Stock: " ++ natStr item.minStock,
         data := RData.item result }, sys2)

/-- `ToolExecutor.updateInventoryItem` (lines 1861–1889). -/
def updateInventoryItem (sys : Sys) (params : Params) : Outcome × Sys :=
  let inventory := Database.getInventory sys
  match inventory.find? (fun i => containsCI i.name (jsOrS params.name (jsOrS params.itemName ""))) with
  | none =>
    ({ success := false,
       message := "❌ Inventory item \"" ++ showJsOr params.name params.itemName ++ "\" not found." }, sys)
  | some m =>
    let updates : InvItemUpd :=
      { name := setIf params.newName, quantity := params.newQuantity,
        minStock := params.newMinStock, category := setIf params.newCategory,
        unit := setIf params.newUnit }
    match Database.updateInventoryItem sys m.id updates with
    | .error e => ({ success := false, message := "❌ Failed to update inventory item: " ++ e }, sys)
    | .ok db2 =>
      let sys2 := loadInventory { sys with db := db2 }
      ({ success := true,
         message := "✅ Inventory item updated successfully!\n\n📋 **Updated:**\n• Name: "
           ++ jsOrS updates.name m.name ++ "\n• Quantity: "
           ++ (match updates.quantity with
               | some q => natStr q
               | none => showOptN m.quantity)
           ++ " " ++ jsOrS updates.unit m.unit,
         data := RData.itemUpd m.id updates }, sys2)

/-- `ToolExecutor.deleteInventoryItem` (lines 1891–1913). -/
def deleteInventoryItem (sys : Sys) (params : Params) : Outcome × Sys :=
  let inventory := Database.getInventory sys
  match inventory.find? (fun i => containsCI i.name (jsOrS params.name (jsOrS params.itemName ""))) with
  | none =>
    ({ success := false,
       message := "❌ Inventory item \"" ++ showJsOr params.name params.itemName ++ "\" not found." }, sys)
  | some m =>
    match Database.deleteInventoryItem sys m.id with
    | .error e => ({ success := false, message := "❌ Failed to delete inventory item: " ++ e }, sys)
    | .ok db2 =>
      let sys2 := loadStats (loadInventory { sys with db := db2 })
      ({ success := true,
         message := "✅ Inventory item deleted successfully!\n\n📋 **Deleted:**\n• Name: "
           ++ m.name ++ "\n• Category: " ++ jsS m.category "N/A",
         data := RData.itemId m.id }, sys2)

/-- `ToolExecutor.listInventoryItems` (lines 1915–1943). -/
def listInventoryItems (sys : Sys) (params : Params) : Outcome × Sys :=
  let inventory := Database.getInventory sys
  if inventory = [] then
    ({ success := true, message := "📦 **Inventory:** No items found." }, sys)
  else
    let filtered := invShown sys params
    if filtered = [] then
      ({ success := true, message := "📦 **Low Stock Items:** None found." }, sys)
    else
      let list := joinNL ((filtered.take 10).map invLine)
      let more :=
        if filtered.length > 10 then moreSuffix (filtered.length - 10) else ""
      ({ success := true,
         message := "📦 **Inventory (" ++ natStr filtered.length ++ "):**\n" ++ list ++ more,
         data := RData.items filtered }, sys)

/-- `ToolExecutor.searchInventory` (lines 1945–1972). -/
def searchInventory (sys : Sys) (params : Params) : Outcome × Sys :=
  let query := jsOrS params.query (jsOrS params.name "")
  let inventory := Database.getInventory sys
  let filtered := inventory.filter
    (fun i => containsCI i.name query || containsCI i.category query)
  if filtered = [] then
    ({ success := true, message := "🔍 **Search \"" ++ query ++ "\":** No inventory items found." }, sys)
  else
    let list := joinNL (filtered.map
      (fun i =>
        (if i.effQuantity ≤ i.effMinStock then "🔴" else "🟢") ++ " " ++ i.name
          ++ " - " ++ natStr i.effQuantity ++ " " ++ i.unit))
    ({ success := true,
       message := "🔍 **Found " ++ natStr filtered.length ++ " items for \"" ++ query ++ "\":**\n" ++ list,
       data := RData.items filtered }, sys)

/-- `ToolExecutor.getLowStockItems` (lines 1974–1999). -/
def getLowStockItems (sys : Sys) (_params : Params) : Outcome × Sys :=
  if Database.isConnected sys then
    let items := sys.db.getLowStock
    if items = [] then
      ({ success := true,
         message := "📦 **Low Stock Items:** None found. All items are well stocked." }, sys)
    else
      let list := joinNL (items.map
        (fun i => "🔴 " ++ i.name ++ " - " ++ natStr i.effQuantity ++ " " ++ i.unit
          ++ " (min: " ++ natStr i.effMinStock ++ ")"))
      ({ success := true,
         message := "📦 **Low Stock Items (" ++ natStr items.length ++ "):**\n" ++ list,
         data := RData.items items }, sys)
  else
    ({ success := false, message := "❌ Failed to get low stock items: Database not connected" }, sys)

/-- `ToolExecutor.answerQuestion` (lines 2001–2005). -/
def answerQuestion (sys : Sys) (params : Params) : Outcome × Sys :=
  ({ success := true,
     message := jsOrS params.response (jsOrS params.answer (jsOrS params.message
       "How can I help you? I can create appointments, manage patients, set deadlines, and more.")) }, sys)

/-- The `switch (toolName.toLowerCase())` body of `ToolExecutor.execute`
(lines 1117–1214), on an already-lowercased action name. -/
def dispatchTool (sys : Sys) (t : String) (params : Params) : Outcome × Sys :=
  if t = "create_patient" then createPatient sys params
  else if t = "edit_patient" ∨ t = "update_patient" then updatePatient sys params
  else if t = "delete_patient" then deletePatient sys params
  else if t = "search_patients" then searchPatients sys params
  else if t = "list_patients" ∨ t = "get_patients" then listPatients sys
  else if t = "get_patient" then getPatient sys params
  else if t = "add_patient_note" then addPatientNote sys params
  else if t = "get_patient_notes" then getPatientNotes sys params
  else if t = "create_appointment" then createAppointment sys params
  else if t = "edit_appointment" ∨ t = "update_appointment" then updateAppointment sys params
  else if t = "delete_appointment" then deleteAppointment sys params
  else if t = "list_appointments" ∨ t = "get_appointments" then listAppointments sys
  else if t = "get_appointment" then
    (if truthyS params.patientName ∧ truthyS params.date then createAppointment sys params
     else listAppointments sys)
  else if t = "get_appointments_for_date" ∨ t = "get_appointments_by_date" then getAppointmentsByDate sys params
  else if t = "create_deadline" then createDeadline sys params
  else if t = "edit_deadline" ∨ t = "update_deadline" then updateDeadline sys params
  else if t = "delete_deadline" then deleteDeadline sys params
  else if t = "list_upcoming_deadlines" ∨ t = "list_deadlines" ∨ t = "get_deadlines" then listDeadlines sys
  else if t = "get_deadline" ∨ t = "get_deadline_details" then getDeadlineDetails sys params
  else if t = "get_deadlines_for_date" ∨ t = "get_deadlines_by_date" then getDeadlinesByDate sys params
  else if t = "search_deadlines" then searchDeadlines sys params
  else if t = "create_inventory_item" ∨ t = "add_inventory_item" then createInventoryItem sys params
  else if t = "edit_inventory_item" ∨ t = "update_inventory_item" then updateInventoryItem sys params
  else if t = "delete_inventory_item" ∨ t = "remove_inventory_item" then deleteInventoryItem sys params
  else if t = "list_inventory_items" ∨ t = "get_inventory" ∨ t = "list_inventory" then listInventoryItems sys params
  else if t = "search_inventory" then searchInventory sys params
  else if t = "get_low_stock" ∨ t = "list_low_stock" then getLowStockItems sys params
  else if t = "answer_question" then answerQuestion sys params
  else if truthyS params.patientName ∧ truthyS params.date then createAppointment sys params
  else
    ({ success := true,
       message := jsOrS params.response (jsOrS params.message
         "I've processed your request. Is there anything else?") }, sys)

/-- `ToolExecutor.execute` (lines 1104–1215): the connection check, then
the case-insensitive dispatch. -/
def execute (sys : Sys) (toolName : String) (params : Params) : Outcome × Sys :=
  if Database.isConnected sys then dispatchTool sys (lowerStr toolName) params
  else
    ({ success := false,
       message := "❌ Database not connected. Please restart the application." }, sys)

end ToolExecutor

/-- The action names with a registered `switch` case in
`ToolExecutor.execute`. -/
def handledNames : List String :=
  ["create_patient", "edit_patient", "update_patient", "delete_patient",
   "search_patients", "list_patients", "get_patients", "get_patient",
   "add_patient_note", "get_patient_notes",
   "create_appointment", "edit_appointment", "update_appointment",
   "delete_appointment", "list_appointments", "get_appointments",
   "get_appointment", "get_appointments_for_date", "get_appointments_by_date",
   "create_deadline", "edit_deadline", "update_deadline", "delete_deadline",
   "list_upcoming_deadlines", "list_deadlines", "get_deadlines",
   "get_deadline", "get_deadline_details", "get_deadlines_for_date",
   "get_deadlines_by_date", "search_deadlines",
   "create_inventory_item", "add_inventory_item", "edit_inventory_item",
   "update_inventory_item", "delete_inventory_item", "remove_inventory_item",
   "list_inventory_items", "get_inventory", "list_inventory",
   "search_inventory", "get_low_stock", "list_low_stock", "answer_question"]

/-! ## Entity mention linker (`linkifyEntityMentions`, lines 2334–2424)

The linker is modelled on `List Char`.  The regular expressions built by
the source are of three shapes, all from escaped literals:
`\b<literal>\b` (case-insensitive whole-word match of a name, title or
formatted date), `(?:patient\s*)?#<digits>\b` (patient-number mentions) and
`/<[^>]+>/` (markup-tag extraction).  The scanners below implement exactly
the leftmost, non-overlapping, resume-after-match semantics of
`String.prototype.replace` with a `g` flag; fuel arguments equal to the
input length keep the recursion structural.  `replace` with a *string*
pattern (placeholder restoration) replaces the first occurrence only. -/

/-- Regex word character (`\w`): alphanumeric or underscore. -/
def isWordChar (c : Char) : Bool :=
  c.isAlphanum || c = '_'

def isWordO : Option Char → Bool
  | some c => isWordChar c
  | none => false

/-- A `\b` boundary between two (possibly absent) neighbouring characters. -/
def boundaryB (a b : Option Char) : Bool :=
  isWordO a != isWordO b

/-- Case-insensitive character equality (the `i` regex flag). -/
def ciEq (a b : Char) : Bool :=
  a.toLower = b.toLower

/-- Case-insensitive prefix test. -/
def ciPref : List Char → List Char → Bool
  | [], _ => true
  | _ :: _, [] => false
  | a :: as, b :: bs => ciEq a b && ciPref as bs

/-- Matcher for `\b<pat>\b` (case-insensitive) at the current position:
returns the matched length.  `prev` is the character before the position. -/
def wordMatcher (pat : List Char) (prev : Option Char) (s : List Char) : Option Nat :=
  if pat.isEmpty then none
  else if ciPref pat s
      && boundaryB prev s.head?
      && boundaryB (s.take pat.length).getLast? (s.drop pat.length).head?
  then some pat.length
  else none

/-- Matcher for `#<digits of n>\b` at the current position. -/
def hashNumMatcher (n : Nat) (s : List Char) : Option Nat :=
  match s with
  | '#' :: rest =>
    let ds := natDigs n
    if isPrefB ds rest && !(isWordO (rest.drop ds.length).head?) then some (1 + ds.length)
    else none
  | _ => none

/-- Matcher for `(?:patient\s*)?#<digits of n>\b` (case-insensitive). -/
def patNumMatcher (n : Nat) (_prev : Option Char) (s : List Char) : Option Nat :=
  if ciPref ("patient".data) s then
    let rest := s.drop 7
    let w := (rest.takeWhile Char.isWhitespace).length
    match hashNumMatcher n (rest.drop w) with
    | some k => some (7 + w + k)
    | none => hashNumMatcher n s
  else hashNumMatcher n s

/-- Global replace: scan left to right, at each position try the matcher;
on a match of length `k ≥ 1`, emit `wrap` of the matched text and resume
after it.  The fuel is consumed one unit per emitted chunk. -/
def scanReplaceAux (m : Option Char → List Char → Option Nat) (wrap : List Char → List Char) :
    Nat → Option Char → List Char → List Char
  | 0, _, s => s
  | _ + 1, _, [] => []
  | f + 1, prev, c :: rest =>
    match m prev (c :: rest) with
    | some (k + 1) =>
      wrap ((c :: rest).take (k + 1))
        ++ scanReplaceAux m wrap f ((c :: rest).take (k + 1)).getLast? ((c :: rest).drop (k + 1))
    | _ => c :: scanReplaceAux m wrap f (some c) rest

/-- `text.replace(regex-with-g-flag, wrap)`. -/
def scanReplace (m : Option Char → List Char → Option Nat) (wrap : List Char → List Char)
    (s : List Char) : List Char :=
  scanReplaceAux m wrap s.length none s

/-- `escapeHtml` (lines 2519–2523): the DOM `textContent`/`innerHTML`
round trip escapes `&`, `<` and `>`. -/
def escapeHtml : List Char → List Char
  | [] => []
  | c :: rest =>
    (if c = '&' then ('&' :: "amp;".data)
     else if c = '<' then ('&' :: "lt;".data)
     else if c = '>' then ('&' :: "gt;".data)
     else [c]) ++ escapeHtml rest

/-- Wrap a match in an opening anchor and `</a>`. -/
def wrapAnchor (pre : List Char) (m : List Char) : List Char :=
  pre ++ m ++ ("</a>").data

def patientAnchorPre (p : Patient) : List Char :=
  ("<a href=\"#\" class=\"entity-link patient-link\" data-type=\"patient\" data-id=\"").data
    ++ natDigs p.id ++ ("\" data-name=\"").data ++ escapeHtml p.name.data ++ ("\">").data

def patientNumAnchorPre (p : Patient) (n : Nat) : List Char :=
  ("<a href=\"#\" class=\"entity-link patient-link\" data-type=\"patient\" data-id=\"").data
    ++ natDigs p.id ++ ("\" data-name=\"").data
    ++ escapeHtml (jsS p.name ("Patient #" ++ natStr n)).data ++ ("\">").data

def apptAnchorPre (a : Appt) : List Char :=
  ("<a href=\"#\" class=\"entity-link appointment-link\" data-type=\"appointment\" data-id=\"").data
    ++ natDigs a.id ++ ("\" data-date=\"").data ++ a.date.data ++ ("\">").data

def deadlineAnchorPre (d : Deadline) : List Char :=
  ("<a href=\"#\" class=\"entity-link deadline-link\" data-type=\"deadline\" data-id=\"").data
    ++ natDigs d.id ++ ("\" data-title=\"").data ++ escapeHtml d.title.data ++ ("\">").data

def invAnchorPre (i : InvItem) : List Char :=
  ("<a href=\"#\" class=\"entity-link inventory-link\" data-type=\"inventory\" data-id=\"").data
    ++ natDigs i.id ++ ("\" data-name=\"").data ++ escapeHtml i.name.data ++ ("\">").data

/-- The two replacement passes run for one cached patient (name mentions,
then patient-number mentions). -/
def patientPass (p : Patient) (s : List Char) : List Char :=
  let s1 :=
    if p.name ≠ "" ∧ p.name.length > 2 then
      scanReplace (wordMatcher p.name.data) (wrapAnchor (patientAnchorPre p)) s
    else s
  match p.patientNumber with
  | some n =>
    if n ≠ 0 then scanReplace (patNumMatcher n) (wrapAnchor (patientNumAnchorPre p n)) s1 else s1
  | none => s1

/-- The replacement pass for one cached appointment (formatted-date mentions). -/
def apptPass (a : Appt) (s : List Char) : List Char :=
  if a.date ≠ "" then
    let fd := formatDate a.date
    if fd ≠ "" ∧ fd ≠ "Invalid Date" then
      scanReplace (wordMatcher fd.data) (wrapAnchor (apptAnchorPre a)) s
    else s
  else s

/-- The replacement pass for one cached deadline (title mentions). -/
def deadlinePass (d : Deadline) (s : List Char) : List Char :=
  if d.title ≠ "" ∧ d.title.length > 3 then
    scanReplace (wordMatcher d.title.data) (wrapAnchor (deadlineAnchorPre d)) s
  else s

/-- The replacement pass for one cached inventory item (name mentions). -/
def invPass (i : InvItem) (s : List Char) : List Char :=
  if i.name ≠ "" ∧ i.name.length > 2 then
    scanReplace (wordMatcher i.name.data) (wrapAnchor (invAnchorPre i)) s
  else s

/-- All entity scans, in the source's fixed order: patients, appointments,
deadlines, inventory. -/
def applyScans (cache : Cache) (s : List Char) : List Char :=
  let s1 := cache.patients.foldl (fun acc p => patientPass p acc) s
  let s2 := cache.appointments.foldl (fun acc a => apptPass a acc) s1
  let s3 := cache.deadlines.foldl (fun acc d => deadlinePass d acc) s2
  cache.inventory.foldl (fun acc i => invPass i acc) s3

/-- The common prefix of every placeholder token. -/
def phPrefix : List Char :=
  ("__PLACEHOLDER_").data

/-- The `__PLACEHOLDER_<i>__` token. -/
def numToken (i : Nat) : List Char :=
  phPrefix ++ natDigs i ++ ('_' :: ['_'])

/-- Scan to the first `>`: returns the characters before it and the
remainder after it. -/
def tagBody : List Char → Option (List Char × List Char)
  | [] => none
  | c :: rest =>
    if c = '>' then some ([], rest)
    else
      match tagBody rest with
      | some (b, r) => some (c :: b, r)
      | none => none

/-- One step of `/<[^>]+>/` at a `<`: the body runs to the first `>` and
must be nonempty. -/
def findTagEnd (s : List Char) : Option (List Char × List Char) :=
  match tagBody s with
  | some (b, r) => if b = [] then none else some (b, r)
  | none => none

/-- Markup-tag extraction: replace every `/<[^>]+>/` match with an indexed
placeholder token, returning the place-held text and the tags in order. -/
def extractAux : Nat → Nat → List Char → List Char × List (List Char)
  | 0, _, s => (s, [])
  | _ + 1, _, [] => ([], [])
  | f + 1, i, c :: rest =>
    if c = '<' then
      match findTagEnd rest with
      | some (body, rest2) =>
        let pt := extractAux f (i + 1) rest2
        (numToken i ++ pt.1, ('<' :: (body ++ ['>'])) :: pt.2)
      | none =>
        let pt := extractAux f i rest
        (c :: pt.1, pt.2)
    else
      let pt := extractAux f i rest
      (c :: pt.1, pt.2)

/-- ECMAScript `GetSubstitution` for a string replacement under a string
search pattern (so no capture groups): a doubled dollar is a literal
dollar, dollar-ampersand the matched substring `m`, dollar followed by the
backquote (code point 96) the part of the subject before the match,
dollar followed by the straight quote (code point 39) the part after it;
any other dollar use stays literal. -/
def getSubstitution (m pre tail : List Char) : List Char → List Char
  | [] => []
  | c :: r =>
    if c = '$' then
      match r with
      | [] => ['$']
      | c2 :: r2 =>
        if c2 = '$' then '$' :: getSubstitution m pre tail r2
        else if c2 = '&' then m ++ getSubstitution m pre tail r2
        else if c2.toNat = 96 then pre ++ getSubstitution m pre tail r2
        else if c2.toNat = 39 then tail ++ getSubstitution m pre tail r2
        else '$' :: c2 :: getSubstitution m pre tail r2
    else c :: getSubstitution m pre tail r

/-- The scan of `text.replace(stringPattern, replacement)`: first
occurrence only, the replacement string going through `GetSubstitution`
against the text before and after the match. The extra list argument
accumulates the scanned-over prefix in reverse. -/
def replaceFirstAux (pat rep : List Char) : List Char → List Char → List Char
  | pre, [] =>
    if isPrefB pat [] then getSubstitution pat pre.reverse [] rep else []
  | pre, c :: rest =>
    if isPrefB pat (c :: rest) then
      getSubstitution pat pre.reverse ((c :: rest).drop pat.length) rep
        ++ (c :: rest).drop pat.length
    else c :: replaceFirstAux pat rep (c :: pre) rest

/-- `text.replace(stringPattern, replacement)` with both arguments
strings: replaces the first occurrence, expanding dollar escapes in the
replacement per `GetSubstitution`. -/
def replaceFirst (pat rep s : List Char) : List Char :=
  replaceFirstAux pat rep [] s

/-- Restore the placeholders in insertion order. -/
def restoreAll (tags : List (List Char)) (s : List Char) : List Char :=
  tags.enum.foldl (fun acc it => replaceFirst (numToken it.1) it.2 acc) s

/-- `linkifyEntityMentions` (lines 2334–2424): return empty or
already-annotated text unchanged; otherwise extract markup tags into
placeholders, run the entity scans, and restore the placeholders. -/
def linkifyEntityMentions (cache : Cache) (text : String) : String :=
  if text = "" then text
  else if strContains text "entity-link" then text
  else
    let pt := extractAux text.data.length 0 text.data
    String.mk (restoreAll pt.2 (applyScans cache pt.1))

/-! # Theorems -/

/-! ## Generic lemmas about the JS-semantics helpers -/

theorem jsOrS_some_ne {s : String} (d : String) (h : s ≠ "") : jsOrS (some s) d = s := by
  simp [jsOrS, h]

theorem truthyS_iff {o : Option String} :
    truthyS o = true ↔ ∃ s, o = some s ∧ s ≠ "" := by
  cases o with
  | none => simp [truthyS]
  | some s => simp [truthyS]

theorem splitOnChar_of_not_mem {sep : Char} {l : List Char} (h : sep ∉ l) :
    splitOnChar sep l = [l] := by
  induction l with
  | nil => rfl
  | cons c rest ih =>
    have hc : c ≠ sep := fun hcs => h (hcs ▸ List.mem_cons_self c rest)
    have hrest : sep ∉ rest := fun hm => h (List.mem_cons_of_mem c hm)
    simp only [splitOnChar, ih hrest, if_neg hc]

theorem convertSlashDate_eq {d : String} {a b c : List Char}
    (h : splitOnChar '/' d.data = [a, b, c]) (ha : a.length ≤ 2) :
    convertSlashDate d = String.mk (c ++ '-' :: (padStart2 b ++ '-' :: padStart2 a)) := by
  have hne : d ≠ "" := by
    intro he
    rw [he] at h
    simp [splitOnChar] at h
  have hmem : '/' ∈ d.data := by
    by_contra hnm
    rw [splitOnChar_of_not_mem hnm] at h
    simp at h
  rw [convertSlashDate, if_neg hne, if_pos hmem, h]
  simp [ha]

theorem convertSlashDate_ne_empty {s : String} (h : s ≠ "") :
    convertSlashDate s ≠ "" := by
  rw [convertSlashDate, if_neg h]
  split
  case isTrue =>
    split
    case h_1 d m y heq =>
      split
      case isTrue =>
        intro hcon
        have h3 := congrArg String.data hcon
        simp at h3
      case isFalse => exact h
    case h_2 => exact h
  case isFalse => exact h

/-! ## C4: unreachable persistence collaborator fails fast -/

/-- C4: for every action, if the persistence collaborator is not reachable
at dispatch time, `ToolExecutor.execute` returns a failure outcome
immediately and leaves the whole system state (persistence, caches, view
state) untouched — no handler runs. -/
theorem claim_C4 (sys : Sys) (toolName : String) (params : Params)
    (h : sys.connected = false) :
    ToolExecutor.execute sys toolName params =
      ({ success := false,
         message := "❌ Database not connected. Please restart the application." }, sys) := by
  rw [ToolExecutor.execute, Database.isConnected, h]
  simp

def sysC4 : Sys :=
  { db := { patients := [{ id := 1, name := "Jane Doe" }], nextId := 2 },
    connected := false, today := "2024-01-01" }

/-- Witness for C4 at a concrete disconnected state and a data-mutating
action. -/
theorem claim_C4_witness :
    sysC4.connected = false ∧
    ToolExecutor.execute sysC4 "delete_patient" { patientName := some "Jane" } =
      ({ success := false,
         message := "❌ Database not connected. Please restart the application." }, sysC4) :=
  ⟨by decide, claim_C4 sysC4 "delete_patient" { patientName := some "Jane" } (by decide)⟩

/-! ## C1: the two deadline date fields under create and update -/

def sysC1 : Sys :=
  { db := { deadlines := [{ id := 1, title := "Submit report",
                            date := "2024-12-25", dueDate := "2024-12-25",
                            priority := "high" }],
            nextId := 2 },
    connected := true, today := "2024-01-01" }

def paramsC1 : Params :=
  { title := some "Submit", newDate := some "2025-01-01" }

/-- C1 (failing input): updating a deadline's date through the
`update_deadline` handler moves `date` but leaves `dueDate` at its old
value, so the two date fields of the resulting record diverge, although the
update reports success.  (Creation keeps them equal; the update handler
omits `dueDate` from the partial record it persists.) -/
theorem claim_C1 :
    (ToolExecutor.execute sysC1 "update_deadline" paramsC1).1.success = true ∧
    ((ToolExecutor.execute sysC1 "update_deadline" paramsC1).2.db.deadlines.map
        (fun d => (d.date, d.dueDate)))
      = [("2025-01-01", "2024-12-25")] ∧
    ¬ (∀ d ∈ (ToolExecutor.execute sysC1 "update_deadline" paramsC1).2.db.deadlines,
        d.date = d.dueDate) := by
  refine ⟨by decide, by decide, ?_⟩
  intro hall
  have := hall { id := 1, title := "Submit report", date := "2025-01-01",
                 dueDate := "2024-12-25", priority := "high" } (by decide)
  simp at this

/-! ## C5: refresh while the collaborator is unreachable -/

def sysC5 : Sys :=
  { db := {}, connected := false,
    cache := { patients := [{ id := 1, name := "Jane Doe" }],
               inventory := [{ id := 2, name := "Gloves" }] },
    today := "2024-01-01" }

/-- C5 (counterexample): on a refresh with the collaborator unreachable,
`loadPatients` does not keep the previous cached snapshot — the non-empty
cache is replaced by the empty collection. -/
theorem claim_C5_counterexample :
    sysC5.cache.patients ≠ [] ∧ (loadPatients sysC5).cache.patients = [] := by
  decide

/-- C5 (amended): when the persistence collaborator is unreachable (or a
read call errors, which the `Database` wrapper converts into an empty
result), every cache-refresh replaces the cached collections with empty
collections; dependent views therefore show empty data, not the previous
snapshot. -/
theorem claim_C5 (sys : Sys) (h : sys.connected = false) :
    (loadPatients sys).cache.patients = [] ∧
    (loadInventory sys).cache.inventory = [] ∧
    (loadStats sys).cache.patients = [] ∧
    (loadStats sys).cache.appointments = [] ∧
    (loadStats sys).cache.deadlines = [] := by
  simp [loadPatients, loadInventory, loadStats,
        Database.getPatients, Database.getInventory, Database.getAppointments,
        Database.getDeadlines, Database.isConnected, h]

/-- Witness for C5 at a concrete disconnected state. -/
theorem claim_C5_witness :
    sysC5.connected = false ∧
    ((loadPatients sysC5).cache.patients = [] ∧
     (loadInventory sysC5).cache.inventory = [] ∧
     (loadStats sysC5).cache.patients = [] ∧
     (loadStats sysC5).cache.appointments = [] ∧
     (loadStats sysC5).cache.deadlines = []) :=
  ⟨by decide, claim_C5 sysC5 (by decide)⟩

/-! ## Dispatcher lemmas -/

theorem execute_connected {sys : Sys} (toolName : String) (params : Params)
    (h : sys.connected = true) :
    ToolExecutor.execute sys toolName params =
      ToolExecutor.dispatchTool sys (lowerStr toolName) params := by
  simp [ToolExecutor.execute, Database.isConnected, h]

/-- An action name outside the registered table falls through to the
default case of the switch. -/
theorem dispatchTool_default (sys : Sys) (params : Params) (t : String)
    (h : t ∉ handledNames) :
    ToolExecutor.dispatchTool sys t params =
      (if truthyS params.patientName = true ∧ truthyS params.date = true then
        ToolExecutor.createAppointment sys params
      else
        ({ success := true,
           message := jsOrS params.response (jsOrS params.message
             "I've processed your request. Is there anything else?") }, sys)) := by
  simp only [handledNames, List.mem_cons, List.not_mem_nil, or_false, not_or] at h
  obtain ⟨n01, n02, n03, n04, n05, n06, n07, n08, n09, n10,
          n11, n12, n13, n14, n15, n16, n17, n18, n19, n20,
          n21, n22, n23, n24, n25, n26, n27, n28, n29, n30,
          n31, n32, n33, n34, n35, n36, n37, n38, n39, n40,
          n41, n42, n43, n44⟩ := h
  simp only [ToolExecutor.dispatchTool,
    n01, n02, n03, n04, n05, n06, n07, n08, n09, n10,
    n11, n12, n13, n14, n15, n16, n17, n18, n19, n20,
    n21, n22, n23, n24, n25, n26, n27, n28, n29, n30,
    n31, n32, n33, n34, n35, n36, n37, n38, n39, n40,
    n41, n42, n43, n44,
    if_false, false_or, or_self, ite_false, eq_self_iff_true]

/-! ## C3: unregistered action names with patient-name and date parameters -/

/-- C3: dispatching an action name with no registered handler, when the
parameter set carries a truthy patient-name field and a truthy date field,
produces exactly the same outcome and state as dispatching
`create_appointment` with the same parameters. -/
theorem claim_C3 (sys : Sys) (toolName : String) (params : Params)
    (h : lowerStr toolName ∉ handledNames)
    (hp : truthyS params.patientName = true)
    (hd : truthyS params.date = true) :
    ToolExecutor.execute sys toolName params =
      ToolExecutor.execute sys "create_appointment" params := by
  rw [ToolExecutor.execute, ToolExecutor.execute]
  by_cases hc : Database.isConnected sys
  · simp only [hc, if_pos]
    have hca : lowerStr "create_appointment" = "create_appointment" := by decide
    rw [hca, dispatchTool_default sys params _ h, if_pos ⟨hp, hd⟩]
    rfl
  · simp only [hc, if_neg, Bool.false_eq_true, if_false]

def sysC3 : Sys :=
  { db := { nextId := 5 }, connected := true, today := "2024-01-01" }

def paramsC3 : Params :=
  { patientName := some "Jane", date := some "2024-12-25" }

/-- Witness for C3: the unregistered name `schedule_visit` behaves exactly
like `create_appointment`. -/
theorem claim_C3_witness :
    lowerStr "schedule_visit" ∉ handledNames ∧
    truthyS paramsC3.patientName = true ∧
    truthyS paramsC3.date = true ∧
    ToolExecutor.execute sysC3 "schedule_visit" paramsC3 =
      ToolExecutor.execute sysC3 "create_appointment" paramsC3 :=
  ⟨by decide, by decide, by decide,
   claim_C3 sysC3 "schedule_visit" paramsC3 (by decide) (by decide) (by decide)⟩

/-! ## Successful appointment creation -/

/-- When the collaborator is reachable and the parameters carry a truthy
`patientName` and a truthy `date`, `createAppointment` persists exactly one
new record whose stored date is the slash-normalised input date. -/
theorem createAppointment_ok (sys : Sys) (params : Params) (pn d : String)
    (hc : sys.connected = true) (hp : params.patientName = some pn) (hpn : pn ≠ "")
    (hd1 : params.date = some d) (hd2 : d ≠ "") :
    ∃ rec : Appt,
      (ToolExecutor.createAppointment sys params).2.db.appointments
        = sys.db.appointments ++ [rec] ∧
      rec.date = convertSlashDate d ∧
      (ToolExecutor.createAppointment sys params).1.success = true := by
  have hpn0 : jsOrS params.patientName (jsOrS params.patient "") = pn := by
    rw [hp]; exact jsOrS_some_ne _ hpn
  have hds : jsOrS params.date "" = d := by
    rw [hd1]; exact jsOrS_some_ne _ hd2
  have hcd : convertSlashDate d ≠ "" := convertSlashDate_ne_empty hd2
  refine ⟨{ id := sys.db.nextId, patientName := pn,
            date := convertSlashDate d,
            time := jsOrS params.time "", type := jsOrS params.type "checkup",
            duration := jsOrN params.duration 30, notes := jsOrS params.notes "",
            status := jsOrS params.status "scheduled" }, ?_, ?_, ?_⟩
  · simp only [ToolExecutor.createAppointment, hpn0, hds]
    rw [if_neg (fun hand => hpn hand.2)]
    simp only [if_neg hpn, if_neg hcd]
    simp only [Database.createAppointment, Database.isConnected, hc, if_pos,
      Db.createAppointment]
    split
    · simp [showDateSchedule, renderCalendar, loadStats]
    · simp [loadTodaySchedule, showDateSchedule, renderCalendar, loadStats]
  · rfl
  · simp only [ToolExecutor.createAppointment, hpn0, hds]
    rw [if_neg (fun hand => hpn hand.2)]
    simp only [if_neg hpn, if_neg hcd]
    simp only [Database.createAppointment, Database.isConnected, hc, if_pos,
      Db.createAppointment]

/-! ## C9: the `get_appointment` action -/

/-- C9: `get_appointment` with a truthy patientName and date does not look
anything up: it runs the creation handler, equal in outcome and state to
dispatching `create_appointment`, and (when the collaborator is reachable)
adds one appointment record; when patientName or date is missing it
behaves exactly like `list_appointments`. -/
theorem claim_C9 (sys : Sys) (params : Params) :
    (truthyS params.patientName = true → truthyS params.date = true →
      ToolExecutor.execute sys "get_appointment" params
        = ToolExecutor.execute sys "create_appointment" params
      ∧ (sys.connected = true →
          (ToolExecutor.execute sys "get_appointment" params).2.db.appointments.length
            = sys.db.appointments.length + 1))
    ∧ (¬(truthyS params.patientName = true ∧ truthyS params.date = true) →
      ToolExecutor.execute sys "get_appointment" params
        = ToolExecutor.execute sys "list_appointments" params) := by
  constructor
  · intro hp hd
    by_cases hc : sys.connected = true
    · have he : ∀ u : String, lowerStr u = u → ToolExecutor.execute sys u params
          = ToolExecutor.dispatchTool sys u params := by
        intro u hu
        rw [execute_connected u params hc, hu]
      rw [he "get_appointment" (by decide), he "create_appointment" (by decide)]
      have hget : ToolExecutor.dispatchTool sys "get_appointment" params
          = (if truthyS params.patientName = true ∧ truthyS params.date = true then
              ToolExecutor.createAppointment sys params
            else ToolExecutor.listAppointments sys) := by
        rfl
      have hcreate : ToolExecutor.dispatchTool sys "create_appointment" params
          = ToolExecutor.createAppointment sys params := by
        rfl
      rw [hget, hcreate, if_pos ⟨hp, hd⟩]
      refine ⟨rfl, fun _ => ?_⟩
      obtain ⟨pn, hp1, hp2⟩ := truthyS_iff.mp hp
      obtain ⟨d, hd1, hd2⟩ := truthyS_iff.mp hd
      obtain ⟨rec, happ, -, -⟩ := createAppointment_ok sys params pn d hc hp1 hp2 hd1 hd2
      rw [happ]
      simp
    · have hcf : sys.connected = false := by
        cases h : sys.connected
        · rfl
        · exact absurd h hc
      rw [claim_C4 sys "get_appointment" params hcf, claim_C4 sys "create_appointment" params hcf]
      refine ⟨rfl, fun hct => absurd hct hc⟩
  · intro hnot
    by_cases hc : sys.connected = true
    · rw [execute_connected _ params hc, execute_connected _ params hc]
      have hget : ToolExecutor.dispatchTool sys (lowerStr "get_appointment") params
          = (if truthyS params.patientName = true ∧ truthyS params.date = true then
              ToolExecutor.createAppointment sys params
            else ToolExecutor.listAppointments sys) := by
        rfl
      have hlist : ToolExecutor.dispatchTool sys (lowerStr "list_appointments") params
          = ToolExecutor.listAppointments sys := by
        rfl
      rw [hget, hlist, if_neg hnot]
    · have hcf : sys.connected = false := by
        cases h : sys.connected
        · rfl
        · exact absurd h hc
      rw [claim_C4 sys "get_appointment" params hcf, claim_C4 sys "list_appointments" params hcf]

def sysC9 : Sys :=
  { db := { nextId := 3 }, connected := true, today := "2024-01-01" }

def paramsC9 : Params :=
  { patientName := some "Jane", date := some "2024-12-25" }

/-- Witness for C9 at a concrete state: both halves of the claim, the
second at a parameter set missing the date. -/
theorem claim_C9_witness :
    (ToolExecutor.execute sysC9 "get_appointment" paramsC9
       = ToolExecutor.execute sysC9 "create_appointment" paramsC9
     ∧ (ToolExecutor.execute sysC9 "get_appointment" paramsC9).2.db.appointments.length
         = sysC9.db.appointments.length + 1)
    ∧ ToolExecutor.execute sysC9 "get_appointment" { patientName := some "Jane" }
        = ToolExecutor.execute sysC9 "list_appointments" { patientName := some "Jane" } := by
  constructor
  · have h := (claim_C9 sysC9 paramsC9).1 (by decide) (by decide)
    exact ⟨h.1, h.2 (by decide)⟩
  · exact (claim_C9 sysC9 { patientName := some "Jane" }).2 (by decide)

/-! ## C2: slash-date normalisation in the create handlers -/

/-- When the collaborator is reachable and the parameters carry a truthy
`title` and a truthy `date`, `createDeadline` persists exactly one new
record whose stored `date` and `dueDate` both equal the slash-normalised
input date. -/
theorem createDeadline_ok (sys : Sys) (params : Params) (ttl d : String)
    (hc : sys.connected = true) (ht : params.title = some ttl) (htt : ttl ≠ "")
    (hd1 : params.date = some d) (hd2 : d ≠ "") :
    ∃ rec : Deadline,
      (ToolExecutor.createDeadline sys params).2.db.deadlines
        = sys.db.deadlines ++ [rec] ∧
      rec.date = convertSlashDate d ∧
      rec.dueDate = convertSlashDate d ∧
      (ToolExecutor.createDeadline sys params).1.success = true := by
  have htl : jsOrS params.title (jsOrS params.description "") = ttl := by
    rw [ht]; exact jsOrS_some_ne _ htt
  have hds : jsOrS params.date (jsOrS params.dueDate "") = d := by
    rw [hd1]; exact jsOrS_some_ne _ hd2
  refine ⟨{ id := sys.db.nextId, title := ttl,
            date := convertSlashDate d, dueDate := convertSlashDate d,
            priority := jsOrS params.priority "medium",
            description := jsOrS params.description "" }, ?_, rfl, rfl, ?_⟩
  · simp only [ToolExecutor.createDeadline, htl, hds]
    rw [if_neg htt]
    simp only [Database.createDeadline, Database.isConnected, hc, if_pos,
      Db.createDeadline]
    split
    · simp [showDateSchedule, renderCalendar, loadStats]
    · simp [loadTodaySchedule, showDateSchedule, renderCalendar, loadStats]
  · simp only [ToolExecutor.createDeadline, htl, hds]
    rw [if_neg htt]
    simp only [Database.createDeadline, Database.isConnected, hc, if_pos,
      Db.createDeadline]

/-- C2: for both date-accepting create handlers, an input date written as
`day/month/year` with `/` separators (first component at most two
characters) is converted to canonical `year-month-day` form, with
zero-padding, before the record reaches the persistence create call; in
particular `"25/12/2024"` becomes `"2024-12-25"`. -/
theorem claim_C2 (sys : Sys) (params : Params) (pn ttl d : String) (a b c : List Char)
    (hc : sys.connected = true)
    (hd1 : params.date = some d)
    (hsplit : splitOnChar '/' d.data = [a, b, c]) (ha : a.length ≤ 2) :
    (params.patientName = some pn → pn ≠ "" →
      ∃ rec : Appt,
        (ToolExecutor.createAppointment sys params).2.db.appointments
          = sys.db.appointments ++ [rec] ∧
        rec.date = String.mk (c ++ '-' :: (padStart2 b ++ '-' :: padStart2 a)))
    ∧ (params.title = some ttl → ttl ≠ "" →
      ∃ rec : Deadline,
        (ToolExecutor.createDeadline sys params).2.db.deadlines
          = sys.db.deadlines ++ [rec] ∧
        rec.date = String.mk (c ++ '-' :: (padStart2 b ++ '-' :: padStart2 a)) ∧
        rec.dueDate = rec.date)
    ∧ convertSlashDate "25/12/2024" = "2024-12-25" := by
  have hdne : d ≠ "" := by
    intro he
    rw [he] at hsplit
    simp [splitOnChar] at hsplit
  have hconv := convertSlashDate_eq hsplit ha
  refine ⟨?_, ?_, by decide⟩
  · intro hp hpn
    obtain ⟨rec, h1, h2, -⟩ := createAppointment_ok sys params pn d hc hp hpn hd1 hdne
    exact ⟨rec, h1, by rw [h2, hconv]⟩
  · intro ht htt
    obtain ⟨rec, h1, h2, h3, -⟩ := createDeadline_ok sys params ttl d hc ht htt hd1 hdne
    exact ⟨rec, h1, by rw [h2, hconv], by rw [h3, h2]⟩

def sysC2 : Sys :=
  { db := { nextId := 9 }, connected := true, today := "2024-01-01" }

def paramsC2 : Params :=
  { patientName := some "Jane", title := some "Submit report", date := some "25/12/2024" }

/-- Witness for C2: the spec's example date `"25/12/2024"` is stored as
`"2024-12-25"` by both create handlers. -/
theorem claim_C2_witness :
    splitOnChar '/' ("25/12/2024").data = [("25").data, ("12").data, ("2024").data] ∧
    (∃ rec : Appt,
      (ToolExecutor.createAppointment sysC2 paramsC2).2.db.appointments
        = sysC2.db.appointments ++ [rec] ∧
      rec.date = String.mk (("2024").data ++ '-' :: (padStart2 ("12").data ++ '-' :: padStart2 ("25").data))) ∧
    (∃ rec : Deadline,
      (ToolExecutor.createDeadline sysC2 paramsC2).2.db.deadlines
        = sysC2.db.deadlines ++ [rec] ∧
      rec.date = String.mk (("2024").data ++ '-' :: (padStart2 ("12").data ++ '-' :: padStart2 ("25").data)) ∧
      rec.dueDate = rec.date) := by
  have h := claim_C2 sysC2 paramsC2 "Jane" "Submit report" "25/12/2024"
    ("25").data ("12").data ("2024").data (by decide) (by decide) (by decide) (by decide)
  exact ⟨by decide, h.1 (by decide) (by decide), h.2.1 (by decide) (by decide)⟩

/-! ## C7: the low-stock classification -/

def invC7 : List InvItem :=
  [{ id := 1, name := "Gloves", quantity := some 5, minStock := some 10 },
   { id := 2, name := "Masks", quantity := some 10, minStock := some 10 },
   { id := 3, name := "Gauze", quantity := some 11, minStock := some 10 }]

def sysC7 : Sys :=
  { db := { inventory := invC7, nextId := 4 },
    connected := true, today := "2024-01-01" }

/-- C7: the low-stock classification used by the inventory list handler is
`quantity ≤ minimum-stock threshold` (with the source's `|| 0` / `|| 10`
defaulting), boundary inclusive: at threshold 10, quantity 5 and quantity
10 are classified low and quantity 11 is not; the low-stock filter of
`list_inventory_items` selects exactly the records satisfying the
inequality, recomputed from the fetched records at read time. -/
theorem claim_C7 :
    ((ToolExecutor.listInventoryItems sysC7 { lowStock := some true }).1.data
      = RData.items
          [{ id := 1, name := "Gloves", quantity := some 5, minStock := some 10 },
           { id := 2, name := "Masks", quantity := some 10, minStock := some 10 }])
    ∧ (∀ sys : Sys, ∀ params : Params, truthyB params.lowStock = true →
        Database.getInventory sys ≠ [] →
        (Database.getInventory sys).filter
            (fun i => i.effQuantity ≤ i.effMinStock) ≠ [] →
        ((ToolExecutor.listInventoryItems sys params).1.data
            = RData.items ((Database.getInventory sys).filter
                (fun i => i.effQuantity ≤ i.effMinStock))
          ∧ ∀ i : InvItem,
              (i ∈ (Database.getInventory sys).filter
                  (fun i => i.effQuantity ≤ i.effMinStock))
                ↔ i ∈ Database.getInventory sys ∧ i.effQuantity ≤ i.effMinStock)) := by
  constructor
  · decide
  · intro sys params hlow hinv hfil
    constructor
    · have hshow : invShown sys params
          = (Database.getInventory sys).filter (fun i => i.effQuantity ≤ i.effMinStock) := by
        simp [invShown, hlow]
      simp only [ToolExecutor.listInventoryItems, if_neg hinv, hshow, if_neg hfil]
    · intro i
      simp [List.mem_filter]

/-- Witness for C7: the general filter clause, instantiated at the
boundary system (where the filter keeps quantities 5 and 10 and drops 11). -/
theorem claim_C7_witness :
    truthyB ({ lowStock := some true } : Params).lowStock = true ∧
    Database.getInventory sysC7 ≠ [] ∧
    ((ToolExecutor.listInventoryItems sysC7 { lowStock := some true }).1.data
        = RData.items ((Database.getInventory sysC7).filter
            (fun i => i.effQuantity ≤ i.effMinStock))
      ∧ ∀ i : InvItem,
          (i ∈ (Database.getInventory sysC7).filter
              (fun i => i.effQuantity ≤ i.effMinStock))
            ↔ i ∈ Database.getInventory sysC7 ∧ i.effQuantity ≤ i.effMinStock) :=
  ⟨by decide, by decide,
   claim_C7.2 sysC7 { lowStock := some true } (by decide) (by decide) (by decide)⟩

/-! ## C10: empty search terms resolve to the first record -/

/-- The partial inventory record built by `updateInventoryItem`. -/
def invUpdOf (params : Params) : InvItemUpd :=
  { name := setIf params.newName, quantity := params.newQuantity,
    minStock := params.newMinStock, category := setIf params.newCategory,
    unit := setIf params.newUnit }

/-- The partial appointment record built by `updateAppointment`. -/
def apptUpdOf (params : Params) : ApptUpd :=
  { date := setIf params.newDate, time := setIf params.newTime,
    type := setIf params.newType, status := setIf params.newStatus,
    notes := setIf params.newNotes }

/-- The partial deadline record built by `updateDeadline`. -/
def dlUpdOf (params : Params) : DeadlineUpd :=
  { title := setIf params.newTitle, date := setIf params.newDate,
    priority := setIf params.newPriority, description := setIf params.newDescription,
    dueDate := none }

theorem isInfB_nil (l : List Char) : isInfB [] l = true := by
  cases l <;> simp [isInfB, isPrefB]

theorem containsCI_empty (s : String) : containsCI s "" = true := by
  simp [containsCI, strContains, lowerStr, isInfB_nil]

/-- C10: when the search-term parameter is absent or empty and the fetched
collection is non-empty, every substring-resolving handler resolves to the
first record (the empty string is a substring of every name/title) and
proceeds against it: `delete_deadline` and `delete_appointment` delete the
first record and report it, `update_inventory_item`, `update_appointment`
and `update_deadline` update the first record, `delete_inventory_item`
deletes the first record and reports it, and `get_deadline_details`
reports the first record — none of them return a not-found failure. -/
theorem claim_C10 (sys : Sys) (hc : sys.connected = true) :
    (∀ (params : Params) (d : Deadline) (rest : List Deadline),
      (params.title = none ∨ params.title = some "") →
      Database.getDeadlines sys = d :: rest →
      (ToolExecutor.deleteDeadline sys params).1.success = true ∧
      (ToolExecutor.deleteDeadline sys params).1.message
        = "✅ Deadline deleted successfully!\n\n📋 **Deleted:**\n• Title: "
            ++ d.title ++ "\n• Due: " ++ formatDate d.dispDate ∧
      (ToolExecutor.deleteDeadline sys params).2.db = sys.db.deleteDeadline d.id)
    ∧ (∀ (params : Params) (a : Appt) (rest : List Appt),
      (params.patientName = none ∨ params.patientName = some "") →
      (params.date = none ∨ params.date = some "") →
      Database.getAppointments sys = a :: rest →
      (ToolExecutor.deleteAppointment sys params).1.success = true ∧
      (ToolExecutor.deleteAppointment sys params).1.message
        = "✅ Appointment deleted successfully!\n\n📋 **Deleted:**\n• Patient: "
            ++ a.patientName ++ "\n• Date: " ++ formatDate a.date
            ++ (if a.time ≠ "" then "\n• Time: " ++ a.time else "") ∧
      (ToolExecutor.deleteAppointment sys params).2.db = sys.db.deleteAppointment a.id)
    ∧ (∀ (params : Params) (i : InvItem) (rest : List InvItem),
      (params.name = none ∨ params.name = some "") →
      (params.itemName = none ∨ params.itemName = some "") →
      Database.getInventory sys = i :: rest →
      (ToolExecutor.updateInventoryItem sys params).1.success = true ∧
      (ToolExecutor.updateInventoryItem sys params).2.db
        = sys.db.updateInventoryItem i.id (invUpdOf params))
    ∧ (∀ (params : Params) (a : Appt) (rest : List Appt),
      (params.patientName = none ∨ params.patientName = some "") →
      (params.date = none ∨ params.date = some "") →
      Database.getAppointments sys = a :: rest →
      (ToolExecutor.updateAppointment sys params).1.success = true ∧
      (ToolExecutor.updateAppointment sys params).2.db
        = sys.db.updateAppointment a.id (apptUpdOf params))
    ∧ (∀ (params : Params) (d : Deadline) (rest : List Deadline),
      (params.title = none ∨ params.title = some "") →
      (params.oldTitle = none ∨ params.oldTitle = some "") →
      Database.getDeadlines sys = d :: rest →
      (ToolExecutor.updateDeadline sys params).1.success = true ∧
      (ToolExecutor.updateDeadline sys params).2.db
        = sys.db.updateDeadline d.id (dlUpdOf params))
    ∧ (∀ (params : Params) (i : InvItem) (rest : List InvItem),
      (params.name = none ∨ params.name = some "") →
      (params.itemName = none ∨ params.itemName = some "") →
      Database.getInventory sys = i :: rest →
      (ToolExecutor.deleteInventoryItem sys params).1.success = true ∧
      (ToolExecutor.deleteInventoryItem sys params).1.message
        = "✅ Inventory item deleted successfully!\n\n📋 **Deleted:**\n• Name: "
            ++ i.name ++ "\n• Category: " ++ jsS i.category "N/A" ∧
      (ToolExecutor.deleteInventoryItem sys params).2.db
        = sys.db.deleteInventoryItem i.id)
    ∧ (∀ (params : Params) (d : Deadline) (rest : List Deadline),
      (params.title = none ∨ params.title = some "") →
      Database.getDeadlines sys = d :: rest →
      (ToolExecutor.getDeadlineDetails sys params).1.success = true ∧
      (ToolExecutor.getDeadlineDetails sys params).1.message
        = "⏰ **Deadline Details:**\n• Title: " ++ d.title
            ++ "\n• Due: " ++ formatDate d.dispDate
            ++ "\n• Priority: " ++ prioEmoji d.priority ++ " " ++ jsS d.priority "medium"
            ++ (if d.description ≠ "" then "\n• Description: " ++ d.description else "") ∧
      (ToolExecutor.getDeadlineDetails sys params).2 = sys) := by
  refine ⟨?_, ?_, ?_, ?_, ?_, ?_, ?_⟩
  · intro params d rest ht hget
    have hterm : jsOrS params.title "" = "" := by
      rcases ht with h | h <;> simp [h, jsOrS]
    have hfind : (d :: rest).find? (fun x => containsCI x.title (jsOrS params.title "")) = some d := by
      apply List.find?_cons_of_pos
      rw [hterm, containsCI_empty]
    simp only [ToolExecutor.deleteDeadline, hget, hfind, Database.deleteDeadline,
      Database.isConnected, hc, if_pos]
    simp [loadDashboard, loadStats, loadTodaySchedule, showDateSchedule, renderCalendar]
  · intro params a rest hp hd hget
    have hterm : jsOrS params.patientName "" = "" := by
      rcases hp with h | h <;> simp [h, jsOrS]
    have hdf : truthyS params.date = false := by
      rcases hd with h | h <;> simp [h, truthyS]
    have hfind : (a :: rest).find? (ToolExecutor.apptMatches params) = some a := by
      apply List.find?_cons_of_pos
      simp [ToolExecutor.apptMatches, hterm, containsCI_empty, hdf]
    simp only [ToolExecutor.deleteAppointment, hget, hfind, Database.deleteAppointment,
      Database.isConnected, hc, if_pos]
    simp [loadDashboard, loadStats, loadTodaySchedule, showDateSchedule, renderCalendar]
  · intro params i rest hn hi hget
    have hterm : jsOrS params.name (jsOrS params.itemName "") = "" := by
      rcases hn with h | h <;> rcases hi with h2 | h2 <;> simp [h, h2, jsOrS]
    have hfind : (i :: rest).find? (fun x => containsCI x.name (jsOrS params.name (jsOrS params.itemName ""))) = some i := by
      apply List.find?_cons_of_pos
      rw [hterm, containsCI_empty]
    simp only [ToolExecutor.updateInventoryItem, hget, hfind, Database.updateInventoryItem,
      Database.isConnected, hc, if_pos]
    simp [loadInventory, invUpdOf]
  · intro params a rest hp hd hget
    have hterm : jsOrS params.patientName "" = "" := by
      rcases hp with h | h <;> simp [h, jsOrS]
    have hdf : truthyS params.date = false := by
      rcases hd with h | h <;> simp [h, truthyS]
    have hfind : (a :: rest).find? (ToolExecutor.apptMatches params) = some a := by
      apply List.find?_cons_of_pos
      simp [ToolExecutor.apptMatches, hterm, containsCI_empty, hdf]
    simp only [ToolExecutor.updateAppointment, hget, hfind, Database.updateAppointment,
      Database.isConnected, hc, if_pos]
    simp [loadDashboard, loadStats, loadTodaySchedule, showDateSchedule, renderCalendar,
      apptUpdOf]
  · intro params d rest ht ho hget
    have hterm : jsOrS params.title (jsOrS params.oldTitle "") = "" := by
      rcases ht with h | h <;> rcases ho with h2 | h2 <;> simp [h, h2, jsOrS]
    have hfind : (d :: rest).find? (fun x => containsCI x.title (jsOrS params.title (jsOrS params.oldTitle ""))) = some d := by
      apply List.find?_cons_of_pos
      rw [hterm, containsCI_empty]
    simp only [ToolExecutor.updateDeadline, hget, hfind, Database.updateDeadline,
      Database.isConnected, hc, if_pos]
    simp [loadDashboard, loadStats, loadTodaySchedule, showDateSchedule, renderCalendar,
      dlUpdOf]
  · intro params i rest hn hi hget
    have hterm : jsOrS params.name (jsOrS params.itemName "") = "" := by
      rcases hn with h | h <;> rcases hi with h2 | h2 <;> simp [h, h2, jsOrS]
    have hfind : (i :: rest).find? (fun x => containsCI x.name (jsOrS params.name (jsOrS params.itemName ""))) = some i := by
      apply List.find?_cons_of_pos
      rw [hterm, containsCI_empty]
    simp only [ToolExecutor.deleteInventoryItem, hget, hfind, Database.deleteInventoryItem,
      Database.isConnected, hc, if_pos]
    simp [loadInventory, loadStats]
  · intro params d rest ht hget
    have hterm : jsOrS params.title "" = "" := by
      rcases ht with h | h <;> simp [h, jsOrS]
    have hfind : (d :: rest).find? (fun x => containsCI x.title (jsOrS params.title "")) = some d := by
      apply List.find?_cons_of_pos
      rw [hterm, containsCI_empty]
    simp only [ToolExecutor.getDeadlineDetails, hget, hfind]
    exact ⟨trivial, trivial, trivial⟩

def sysC10 : Sys :=
  { db := { deadlines := [{ id := 1, title := "Submit report", date := "2024-12-25", dueDate := "2024-12-25" },
                          { id := 2, title := "Order stock", date := "2024-11-05", dueDate := "2024-11-05" }],
            appointments := [{ id := 3, patientName := "Jane Doe", date := "2024-12-25" },
                             { id := 4, patientName := "John Roe", date := "2024-11-05" }],
            inventory := [{ id := 5, name := "Gloves", quantity := some 5, minStock := some 10 },
                          { id := 6, name := "Masks", quantity := some 7, minStock := some 10 }],
            nextId := 7 },
    connected := true, today := "2024-01-01" }

/-- Witness for C10: with no search term supplied, the first deadline, the
first appointment and the first inventory item are the ones acted on — by
each of the seven substring-resolving handlers. -/
theorem claim_C10_witness :
    sysC10.connected = true ∧
    ((ToolExecutor.deleteDeadline sysC10 {}).1.success = true ∧
     (ToolExecutor.deleteDeadline sysC10 {}).1.message
       = "✅ Deadline deleted successfully!\n\n📋 **Deleted:**\n• Title: Submit report\n• Due: " ++ formatDate "2024-12-25" ∧
     (ToolExecutor.deleteDeadline sysC10 {}).2.db = sysC10.db.deleteDeadline 1) ∧
    ((ToolExecutor.deleteAppointment sysC10 {}).1.success = true ∧
     (ToolExecutor.deleteAppointment sysC10 {}).2.db = sysC10.db.deleteAppointment 3) ∧
    ((ToolExecutor.updateInventoryItem sysC10 { newQuantity := some 50 }).1.success = true ∧
     (ToolExecutor.updateInventoryItem sysC10 { newQuantity := some 50 }).2.db
       = sysC10.db.updateInventoryItem 5 (invUpdOf { newQuantity := some 50 })) ∧
    ((ToolExecutor.updateAppointment sysC10 { newTime := some "10:00" }).1.success = true ∧
     (ToolExecutor.updateAppointment sysC10 { newTime := some "10:00" }).2.db
       = sysC10.db.updateAppointment 3 (apptUpdOf { newTime := some "10:00" })) ∧
    ((ToolExecutor.updateDeadline sysC10 { newPriority := some "high" }).1.success = true ∧
     (ToolExecutor.updateDeadline sysC10 { newPriority := some "high" }).2.db
       = sysC10.db.updateDeadline 1 (dlUpdOf { newPriority := some "high" })) ∧
    ((ToolExecutor.deleteInventoryItem sysC10 {}).1.success = true ∧
     (ToolExecutor.deleteInventoryItem sysC10 {}).2.db
       = sysC10.db.deleteInventoryItem 5) ∧
    ((ToolExecutor.getDeadlineDetails sysC10 {}).1.success = true ∧
     (ToolExecutor.getDeadlineDetails sysC10 {}).2 = sysC10) := by
  have h := claim_C10 sysC10 (by decide)
  have h1 := h.1 {} { id := 1, title := "Submit report", date := "2024-12-25", dueDate := "2024-12-25" }
    [{ id := 2, title := "Order stock", date := "2024-11-05", dueDate := "2024-11-05" }]
    (Or.inl rfl) (by decide)
  have h2 := h.2.1 {} { id := 3, patientName := "Jane Doe", date := "2024-12-25" }
    [{ id := 4, patientName := "John Roe", date := "2024-11-05" }]
    (Or.inl rfl) (Or.inl rfl) (by decide)
  have h3 := h.2.2.1 { newQuantity := some 50 }
    { id := 5, name := "Gloves", quantity := some 5, minStock := some 10 }
    [{ id := 6, name := "Masks", quantity := some 7, minStock := some 10 }]
    (Or.inl rfl) (Or.inl rfl) (by decide)
  have h4 := h.2.2.2.1 { newTime := some "10:00" }
    { id := 3, patientName := "Jane Doe", date := "2024-12-25" }
    [{ id := 4, patientName := "John Roe", date := "2024-11-05" }]
    (Or.inl rfl) (Or.inl rfl) (by decide)
  have h5 := h.2.2.2.2.1 { newPriority := some "high" }
    { id := 1, title := "Submit report", date := "2024-12-25", dueDate := "2024-12-25" }
    [{ id := 2, title := "Order stock", date := "2024-11-05", dueDate := "2024-11-05" }]
    (Or.inl rfl) (Or.inl rfl) (by decide)
  have h6 := h.2.2.2.2.2.1 {}
    { id := 5, name := "Gloves", quantity := some 5, minStock := some 10 }
    [{ id := 6, name := "Masks", quantity := some 7, minStock := some 10 }]
    (Or.inl rfl) (Or.inl rfl) (by decide)
  have h7 := h.2.2.2.2.2.2 {}
    { id := 1, title := "Submit report", date := "2024-12-25", dueDate := "2024-12-25" }
    [{ id := 2, title := "Order stock", date := "2024-11-05", dueDate := "2024-11-05" }]
    (Or.inl rfl) (by decide)
  exact ⟨by decide, ⟨h1.1, h1.2.1, h1.2.2⟩, ⟨h2.1, h2.2.2⟩, ⟨h3.1, h3.2⟩,
    ⟨h4.1, h4.2⟩, ⟨h5.1, h5.2⟩, ⟨h6.1, h6.2.2⟩, ⟨h7.1, h7.2.2⟩⟩

/-! ## C6: display caps of the list handlers -/

theorem strAppend_assoc (a b c : String) : a ++ b ++ c = a ++ (b ++ c) := by
  cases a with
  | mk x =>
    cases b with
    | mk y =>
      cases c with
      | mk z => exact congrArg String.mk (List.append_assoc x y z)

/-- Every element of a `join('\n')` is a substring of the joined string. -/
theorem mem_joinNL {e : String} : ∀ {l : List String}, e ∈ l → e.data <:+: (joinNL l).data
  | [], h => absurd h (List.not_mem_nil e)
  | [s], h => by
    rcases List.mem_singleton.mp h with rfl
    exact List.infix_refl _
  | s :: t :: rest, h => by
    rcases List.mem_cons.mp h with rfl | h2
    · exact ((List.prefix_append e.data ("\n").data).trans
        (List.prefix_append _ (joinNL (t :: rest)).data)).isInfix
    · exact (mem_joinNL h2).trans (List.suffix_append _ _).isInfix

/-- The remaining-count pattern the claim asks for. -/
def morePat (k : Nat) : String :=
  "+" ++ natStr k ++ " more"

theorem morePat_infix_moreSuffix (k : Nat) : (morePat k).data <:+: (moreSuffix k).data := by
  have h : (moreSuffix k).data = ("\n... ").data ++ (morePat k).data := by
    simp [moreSuffix, morePat, List.append_assoc]
  rw [h]
  exact (List.suffix_append _ _).isInfix

theorem listPatients_capped (sys : Sys) :
    (∀ p ∈ (Database.getPatients sys).take 10,
        (patientLine p).data <:+: (ToolExecutor.listPatients sys).1.message.data)
    ∧ ((Database.getPatients sys).length > 10 →
        (morePat ((Database.getPatients sys).length - 10)).data
          <:+: (ToolExecutor.listPatients sys).1.message.data) := by
  by_cases hps : Database.getPatients sys = []
  · refine ⟨fun p hp => ?_, fun hlen => ?_⟩
    · rw [hps] at hp
      simp at hp
    · rw [hps] at hlen
      simp at hlen
  · have hmsg : (ToolExecutor.listPatients sys).1.message
        = "📋 **Patients (" ++ natStr (Database.getPatients sys).length ++ "):**\n"
            ++ joinNL (((Database.getPatients sys).take 10).map patientLine)
            ++ (if (Database.getPatients sys).length > 10 then
                  moreSuffix ((Database.getPatients sys).length - 10)
                else "") := by
      simp only [ToolExecutor.listPatients, if_neg hps]
    rw [hmsg]
    constructor
    · intro p hp
      exact (mem_joinNL (List.mem_map_of_mem patientLine hp)).trans
        (List.infix_append _ _ _)
    · intro hlen
      rw [if_pos hlen]
      exact (morePat_infix_moreSuffix _).trans (List.suffix_append _ _).isInfix

theorem listAppointments_capped (sys : Sys) :
    (∀ a ∈ (upcomingAppts sys).take 8,
        (apptLine a).data <:+: (ToolExecutor.listAppointments sys).1.message.data)
    ∧ ((upcomingAppts sys).length > 8 →
        (morePat ((upcomingAppts sys).length - 8)).data
          <:+: (ToolExecutor.listAppointments sys).1.message.data) := by
  by_cases hap : Database.getAppointments sys = []
  · have hup : upcomingAppts sys = [] := by
      simp [upcomingAppts, hap, sortByKey]
    refine ⟨fun a ha => ?_, fun hlen => ?_⟩
    · rw [hup] at ha
      simp at ha
    · rw [hup] at hlen
      simp at hlen
  · by_cases hup : upcomingAppts sys = []
    · refine ⟨fun a ha => ?_, fun hlen => ?_⟩
      · rw [hup] at ha
        simp at ha
      · rw [hup] at hlen
        simp at hlen
    · have hmsg : (ToolExecutor.listAppointments sys).1.message
          = "📅 **Upcoming Appointments (" ++ natStr (upcomingAppts sys).length ++ "):**\n"
              ++ joinNL (((upcomingAppts sys).take 8).map apptLine)
              ++ (if (upcomingAppts sys).length > 8 then
                    moreSuffix ((upcomingAppts sys).length - 8)
                  else "") := by
        simp only [ToolExecutor.listAppointments, if_neg hap, if_neg hup]
      rw [hmsg]
      constructor
      · intro a ha
        exact (mem_joinNL (List.mem_map_of_mem apptLine ha)).trans
          (List.infix_append _ _ _)
      · intro hlen
        rw [if_pos hlen]
        exact (morePat_infix_moreSuffix _).trans (List.suffix_append _ _).isInfix

theorem listInventoryItems_capped (sys : Sys) (params : Params) :
    (∀ i ∈ (invShown sys params).take 10,
        (invLine i).data <:+: (ToolExecutor.listInventoryItems sys params).1.message.data)
    ∧ ((invShown sys params).length > 10 →
        (morePat ((invShown sys params).length - 10)).data
          <:+: (ToolExecutor.listInventoryItems sys params).1.message.data) := by
  by_cases hin : Database.getInventory sys = []
  · have hsh : invShown sys params = [] := by
      simp [invShown, hin]
    refine ⟨fun i hi => ?_, fun hlen => ?_⟩
    · rw [hsh] at hi
      simp at hi
    · rw [hsh] at hlen
      simp at hlen
  · by_cases hf : invShown sys params = []
    · refine ⟨fun i hi => ?_, fun hlen => ?_⟩
      · rw [hf] at hi
        simp at hi
      · rw [hf] at hlen
        simp at hlen
    · have hmsg : (ToolExecutor.listInventoryItems sys params).1.message
          = "📦 **Inventory (" ++ natStr (invShown sys params).length ++ "):**\n"
              ++ joinNL (((invShown sys params).take 10).map invLine)
              ++ (if (invShown sys params).length > 10 then
                    moreSuffix ((invShown sys params).length - 10)
                  else "") := by
        simp only [ToolExecutor.listInventoryItems, if_neg hin, if_neg hf]
      rw [hmsg]
      constructor
      · intro i hi
        exact (mem_joinNL (List.mem_map_of_mem invLine hi)).trans
          (List.infix_append _ _ _)
      · intro hlen
        rw [if_pos hlen]
        exact (morePat_infix_moreSuffix _).trans (List.suffix_append _ _).isInfix

theorem listDeadlines_capped (sys : Sys) :
    (∀ d ∈ (upcomingDeadlines sys).take 8,
        (deadlineLine d).data <:+: (ToolExecutor.listDeadlines sys).1.message.data)
    ∧ ((upcomingDeadlines sys) ≠ [] → Database.getDeadlines sys ≠ [] →
        ("(" ++ natStr (upcomingDeadlines sys).length ++ "):").data
          <:+: (ToolExecutor.listDeadlines sys).1.message.data) := by
  by_cases hdl : Database.getDeadlines sys = []
  · have hup : upcomingDeadlines sys = [] := by
      simp [upcomingDeadlines, hdl, sortByKey]
    refine ⟨fun d hd => ?_, fun hne _ => absurd hup hne⟩
    rw [hup] at hd
    simp at hd
  · by_cases hup : upcomingDeadlines sys = []
    · refine ⟨fun d hd => ?_, fun hne _ => absurd hup hne⟩
      rw [hup] at hd
      simp at hd
    · have hmsg : (ToolExecutor.listDeadlines sys).1.message
          = "⏰ **Upcoming Deadlines (" ++ natStr (upcomingDeadlines sys).length ++ "):**\n"
              ++ joinNL (((upcomingDeadlines sys).take 8).map deadlineLine) := by
        simp only [ToolExecutor.listDeadlines, if_neg hdl, if_neg hup]
      rw [hmsg]
      constructor
      · intro d hd
        exact (mem_joinNL (List.mem_map_of_mem deadlineLine hd)).trans
          (List.suffix_append _ _).isInfix
      · intro _ _
        have h : ("⏰ **Upcoming Deadlines (" ++ natStr (upcomingDeadlines sys).length ++ "):**\n"
              ++ joinNL (((upcomingDeadlines sys).take 8).map deadlineLine)).data
            = ("⏰ **Upcoming Deadlines ").data
              ++ ("(" ++ natStr (upcomingDeadlines sys).length ++ "):").data
              ++ (("**\n").data ++ (joinNL (((upcomingDeadlines sys).take 8).map deadlineLine)).data) := by
          simp [List.append_assoc]
        rw [h]
        exact List.infix_append _ _ _

/-- C6 (amended): every list action caps the records it displays — 10 for
patients and inventory, 8 for appointments and deadlines (only entry lines
of the first cap-many fetched/filtered records appear); when the cap
truncates the result, the patient, appointment and inventory lists report
the count of remaining items with a `+k more` suffix, but the deadline
list reports only the total upcoming count in its heading and no
remaining-item count. -/
theorem claim_C6 (sys : Sys) (params : Params) :
    ((∀ p ∈ (Database.getPatients sys).take 10,
        (patientLine p).data <:+: (ToolExecutor.listPatients sys).1.message.data)
      ∧ ((Database.getPatients sys).length > 10 →
        (morePat ((Database.getPatients sys).length - 10)).data
          <:+: (ToolExecutor.listPatients sys).1.message.data))
    ∧ ((∀ a ∈ (upcomingAppts sys).take 8,
        (apptLine a).data <:+: (ToolExecutor.listAppointments sys).1.message.data)
      ∧ ((upcomingAppts sys).length > 8 →
        (morePat ((upcomingAppts sys).length - 8)).data
          <:+: (ToolExecutor.listAppointments sys).1.message.data))
    ∧ ((∀ i ∈ (invShown sys params).take 10,
        (invLine i).data <:+: (ToolExecutor.listInventoryItems sys params).1.message.data)
      ∧ ((invShown sys params).length > 10 →
        (morePat ((invShown sys params).length - 10)).data
          <:+: (ToolExecutor.listInventoryItems sys params).1.message.data))
    ∧ ((∀ d ∈ (upcomingDeadlines sys).take 8,
        (deadlineLine d).data <:+: (ToolExecutor.listDeadlines sys).1.message.data)
      ∧ ((upcomingDeadlines sys) ≠ [] → Database.getDeadlines sys ≠ [] →
        ("(" ++ natStr (upcomingDeadlines sys).length ++ "):").data
          <:+: (ToolExecutor.listDeadlines sys).1.message.data)) :=
  ⟨listPatients_capped sys, listAppointments_capped sys,
   listInventoryItems_capped sys params, listDeadlines_capped sys⟩

def sysC6 : Sys :=
  { db := { patients := (List.range 11).map (fun k => { id := k + 1, name := "Pat" ++ natStr (k + 1) }),
            appointments := (List.range 9).map
              (fun k => { id := 20 + k, patientName := "Pat" ++ natStr (k + 1),
                          date := "2030-01-0" ++ natStr (k + 1) }),
            deadlines := (List.range 9).map
              (fun k => { id := 40 + k, title := "AAA" ++ natStr (k + 1),
                          date := "2030-01-0" ++ natStr (k + 1),
                          dueDate := "2030-01-0" ++ natStr (k + 1) }),
            inventory := (List.range 11).map
              (fun k => { id := 60 + k, name := "Itm" ++ natStr (k + 1),
                          quantity := some 5, minStock := some 10 }),
            nextId := 100 },
    connected := true, today := "2025-06-15" }

/-- Witness for C6: at a state with 11 patients, 9 upcoming appointments,
11 inventory items and 9 upcoming deadlines, the tenth patient's line and
the `+1 more` suffix appear in the patient list, and correspondingly for
appointments and inventory; the deadline heading carries the total count. -/
theorem claim_C6_witness :
    ((patientLine { id := 10, name := "Pat10" }).data
        <:+: (ToolExecutor.listPatients sysC6).1.message.data)
    ∧ ((morePat 1).data <:+: (ToolExecutor.listPatients sysC6).1.message.data)
    ∧ ((morePat 1).data <:+: (ToolExecutor.listAppointments sysC6).1.message.data)
    ∧ ((morePat 1).data <:+: (ToolExecutor.listInventoryItems sysC6 {}).1.message.data)
    ∧ (("(" ++ natStr 9 ++ "):").data <:+: (ToolExecutor.listDeadlines sysC6).1.message.data) := by
  have h := claim_C6 sysC6 {}
  refine ⟨?_, ?_, ?_, ?_, ?_⟩
  · exact h.1.1 { id := 10, name := "Pat10" } (by decide)
  · exact (by decide : (Database.getPatients sysC6).length - 10 = 1) ▸ h.1.2 (by decide)
  · exact (by decide : (upcomingAppts sysC6).length - 8 = 1) ▸ h.2.1.2 (by decide)
  · exact (by decide : (invShown sysC6 {}).length - 10 = 1) ▸ h.2.2.1.2 (by decide)
  · exact (by decide : (upcomingDeadlines sysC6).length = 9) ▸ h.2.2.2.2 (by decide) (by decide)

def sysC6ce : Sys :=
  { db := { deadlines := (List.range 9).map
              (fun k => { id := 40 + k, title := "AAA" ++ natStr (k + 1),
                          date := "2030-01-0" ++ natStr (k + 1),
                          dueDate := "2030-01-0" ++ natStr (k + 1) }),
            nextId := 100 },
    connected := true, today := "2025-06-15" }

/-- C6 (counterexample): with nine upcoming deadlines the deadline list is
truncated to eight entries (the ninth title never appears), yet the
outcome message carries no remaining-item count — no ` more` suffix and no
`+1` anywhere — refuting the claim that every capped list reports the
count of remaining items. -/
theorem claim_C6_counterexample :
    (upcomingDeadlines sysC6ce).length = 9 ∧
    strContains (ToolExecutor.listDeadlines sysC6ce).1.message "AAA8" = true ∧
    strContains (ToolExecutor.listDeadlines sysC6ce).1.message "AAA9" = false ∧
    strContains (ToolExecutor.listDeadlines sysC6ce).1.message " more" = false ∧
    strContains (ToolExecutor.listDeadlines sysC6ce).1.message "+1" = false := by
  decide

/-! ## C8: idempotence of the entity-mention linker

The linker returns marker-carrying text unchanged; every replacement it
performs inserts the marker `entity-link`; and, for inputs that do not
contain its internal placeholder token as literal text, a pass that makes
no replacement restores the input exactly.  Together these give
idempotence for placeholder-free inputs.  Inputs that do contain literal
`__PLACEHOLDER_…__` text can confuse the first-occurrence restoration and
break idempotence — the counterexample below exhibits this. -/

/-- The linker's annotation marker. -/
def markerL : List Char :=
  ("entity-link").data

theorem isPrefB_iff : ∀ {a b : List Char}, isPrefB a b = true ↔ a <+: b
  | [], b => by simp [isPrefB]
  | _ :: _, [] => by simp [isPrefB, List.prefix_nil]
  | x :: xs, y :: ys => by
    simp only [isPrefB, Bool.and_eq_true, decide_eq_true_eq, List.cons_prefix_cons]
    exact and_congr Iff.rfl isPrefB_iff

theorem isInfB_iff : ∀ {pat s : List Char}, isInfB pat s = true ↔ pat <:+: s
  | pat, [] => by
    simp only [isInfB, List.infix_nil, isPrefB_iff, List.prefix_nil]
  | pat, b :: bs => by
    simp only [isInfB, Bool.or_eq_true, isPrefB_iff, List.infix_cons_iff]
    exact or_congr Iff.rfl isInfB_iff

theorem strContains_iff {s pat : String} : strContains s pat = true ↔ pat.data <:+: s.data := by
  simp [strContains, isInfB_iff]

theorem digChar_isDigit (d : Nat) : (digChar d).isDigit = true := by
  rcases d with _|_|_|_|_|_|_|_|_|n <;> rfl

theorem natDigsAux_digits :
    ∀ (f n : Nat) (acc : List Char), (∀ c ∈ acc, c.isDigit = true) →
      ∀ c ∈ natDigsAux f n acc, c.isDigit = true
  | 0, _, _, hacc => hacc
  | _ + 1, 0, _, hacc => hacc
  | f + 1, n + 1, acc, hacc => by
    refine natDigsAux_digits f ((n + 1) / 10) (digChar ((n + 1) % 10) :: acc) ?_
    intro c hc
    rcases List.mem_cons.mp hc with rfl | hc2
    · exact digChar_isDigit _
    · exact hacc c hc2

theorem natDigs_digits (n : Nat) : ∀ c ∈ natDigs n, c.isDigit = true := by
  unfold natDigs
  split
  · intro c hc
    rcases List.mem_singleton.mp hc with rfl
    rfl
  · exact natDigsAux_digits n n [] (by intro c hc; simp at hc)

theorem natDigsAux_acc (f n : Nat) (acc : List Char) :
    ∃ ds : List Char, natDigsAux f n acc = ds ++ acc := by
  induction f generalizing n acc with
  | zero => exact ⟨[], rfl⟩
  | succ f ih =>
    cases n with
    | zero => exact ⟨[], rfl⟩
    | succ n =>
      obtain ⟨ds, hds⟩ := ih ((n + 1) / 10) (digChar ((n + 1) % 10) :: acc)
      exact ⟨ds ++ [digChar ((n + 1) % 10)], by simp [natDigsAux, hds]⟩

theorem natDigs_ne_nil (n : Nat) : natDigs n ≠ [] := by
  unfold natDigs
  split
  · simp
  · rename_i hn
    cases n with
    | zero => exact absurd rfl hn
    | succ n =>
      show natDigsAux (n + 1) (n + 1) [] ≠ []
      obtain ⟨ds, hds⟩ := natDigsAux_acc n ((n + 1) / 10) [digChar ((n + 1) % 10)]
      rw [natDigsAux, hds]
      simp

theorem phPrefix_length : phPrefix.length = 14 := by decide

theorem natDigs_pos (i : Nat) : 0 < (natDigs i).length := by
  have h := natDigs_ne_nil i
  cases hd : natDigs i with
  | nil => exact absurd hd h
  | cons a l => simp

theorem numToken_ge (i : Nat) : 16 ≤ (numToken i).length := by
  have h1 := natDigs_pos i
  simp only [numToken, List.length_append, phPrefix_length, List.length_cons,
    List.length_nil]
  omega

/-- The character at offset `o ≤ 13` of a placeholder token is the
corresponding character of its fixed prefix. -/
theorem numToken_getElem_low (i : Nat) {o : Nat} (ho : o < 14)
    (hb : o < (numToken i).length) (hp : o < phPrefix.length) :
    (numToken i)[o] = phPrefix[o] := by
  have h1 : o < (phPrefix ++ natDigs i).length := by
    have := natDigs_pos i
    simp only [List.length_append, phPrefix_length]
    omega
  unfold numToken at hb ⊢
  rw [List.getElem_append_left h1, List.getElem_append_left (by rw [phPrefix_length]; exact ho)]

/-- The character at offset 14 of a placeholder token is the first digit. -/
theorem numToken_getElem_14 (i : Nat) (hb : 14 < (numToken i).length)
    (hd : 0 < (natDigs i).length) :
    (numToken i)[14] = (natDigs i)[0] := by
  have h1 : 14 < (phPrefix ++ natDigs i).length := by
    have := natDigs_pos i
    simp only [List.length_append, phPrefix_length]
    omega
  have h14 : phPrefix.length ≤ 14 := by rw [phPrefix_length]
  unfold numToken at hb ⊢
  rw [List.getElem_append_left h1, List.getElem_append_right h14]
  simp [phPrefix_length]

/-- No two consecutive underscores inside the fixed token prefix except at
its very start. -/
theorem phPrefix_no_uu (s : Nat) (h1 : 1 ≤ s) (hs1 : s + 1 < 14) :
    ¬(phPrefix.getD s 'x' = '_' ∧ phPrefix.getD (s + 1) 'x' = '_') := by
  have h2 : s ≤ 12 := by omega
  interval_cases s <;> decide

theorem IsPrefix.appR {a b : List Char} (c : List Char) (h : a <+: b) : a <+: b ++ c :=
  h.trans (List.prefix_append b c)

/-- Every output of an anchor wrapper whose opening tag carries the marker
contains the marker. -/
theorem marker_infix_wrapAnchor {pre : List Char} (m : List Char)
    (h : markerL <:+: pre) : markerL <:+: wrapAnchor pre m :=
  h.trans ((IsPrefix.appR _ (List.prefix_append pre m)).isInfix)

theorem marker_infix_patientAnchorPre (p : Patient) : markerL <:+: patientAnchorPre p := by
  have h : markerL <:+:
      ("<a href=\"#\" class=\"entity-link patient-link\" data-type=\"patient\" data-id=\"").data :=
    isInfB_iff.mp (by decide)
  exact h.trans
    ((IsPrefix.appR _ (IsPrefix.appR _ (IsPrefix.appR _ (IsPrefix.appR _
      (List.prefix_refl _))))).isInfix)

theorem marker_infix_patientNumAnchorPre (p : Patient) (n : Nat) :
    markerL <:+: patientNumAnchorPre p n := by
  have h : markerL <:+:
      ("<a href=\"#\" class=\"entity-link patient-link\" data-type=\"patient\" data-id=\"").data :=
    isInfB_iff.mp (by decide)
  exact h.trans
    ((IsPrefix.appR _ (IsPrefix.appR _ (IsPrefix.appR _ (IsPrefix.appR _
      (List.prefix_refl _))))).isInfix)

theorem marker_infix_apptAnchorPre (a : Appt) : markerL <:+: apptAnchorPre a := by
  have h : markerL <:+:
      ("<a href=\"#\" class=\"entity-link appointment-link\" data-type=\"appointment\" data-id=\"").data :=
    isInfB_iff.mp (by decide)
  exact h.trans
    ((IsPrefix.appR _ (IsPrefix.appR _ (IsPrefix.appR _ (IsPrefix.appR _
      (List.prefix_refl _))))).isInfix)

theorem marker_infix_deadlineAnchorPre (d : Deadline) : markerL <:+: deadlineAnchorPre d := by
  have h : markerL <:+:
      ("<a href=\"#\" class=\"entity-link deadline-link\" data-type=\"deadline\" data-id=\"").data :=
    isInfB_iff.mp (by decide)
  exact h.trans
    ((IsPrefix.appR _ (IsPrefix.appR _ (IsPrefix.appR _ (IsPrefix.appR _
      (List.prefix_refl _))))).isInfix)

theorem marker_infix_invAnchorPre (i : InvItem) : markerL <:+: invAnchorPre i := by
  have h : markerL <:+:
      ("<a href=\"#\" class=\"entity-link inventory-link\" data-type=\"inventory\" data-id=\"").data :=
    isInfB_iff.mp (by decide)
  exact h.trans
    ((IsPrefix.appR _ (IsPrefix.appR _ (IsPrefix.appR _ (IsPrefix.appR _
      (List.prefix_refl _))))).isInfix)

/-- A global replace either changes nothing or inserts a marker-carrying
replacement. -/
theorem scanReplaceAux_dichotomy (m : Option Char → List Char → Option Nat)
    (wrap : List Char → List Char) (hw : ∀ t, markerL <:+: wrap t) :
    ∀ (f : Nat) (prev : Option Char) (s : List Char),
      scanReplaceAux m wrap f prev s = s ∨ markerL <:+: scanReplaceAux m wrap f prev s
  | 0, _, _ => Or.inl rfl
  | _ + 1, _, [] => Or.inl rfl
  | f + 1, prev, c :: rest => by
    rw [scanReplaceAux]
    split
    · exact Or.inr ((hw _).trans (List.prefix_append _ _).isInfix)
    · rcases scanReplaceAux_dichotomy m wrap hw f (some c) rest with h | h
      · exact Or.inl (by rw [h])
      · exact Or.inr (h.trans (List.suffix_cons c _).isInfix)

theorem scanReplace_dichotomy (m : Option Char → List Char → Option Nat)
    (wrap : List Char → List Char) (hw : ∀ t, markerL <:+: wrap t) (s : List Char) :
    scanReplace m wrap s = s ∨ markerL <:+: scanReplace m wrap s :=
  scanReplaceAux_dichotomy m wrap hw s.length none s

/-- Chaining two change-or-mark steps. -/
theorem dichStep {s s1 s2 : List Char}
    (h1 : s1 = s ∨ markerL <:+: s1) (h2 : s2 = s1 ∨ markerL <:+: s2) :
    s2 = s ∨ markerL <:+: s2 := by
  rcases h2 with rfl | h2
  · exact h1
  · exact Or.inr h2

theorem patientPass_dichotomy (p : Patient) (s : List Char) :
    patientPass p s = s ∨ markerL <:+: patientPass p s := by
  rw [patientPass]
  have h1 : (if p.name ≠ "" ∧ p.name.length > 2 then
        scanReplace (wordMatcher p.name.data) (wrapAnchor (patientAnchorPre p)) s
      else s) = s
      ∨ markerL <:+: (if p.name ≠ "" ∧ p.name.length > 2 then
        scanReplace (wordMatcher p.name.data) (wrapAnchor (patientAnchorPre p)) s
      else s) := by
    split
    · exact scanReplace_dichotomy _ _
        (fun t => marker_infix_wrapAnchor t (marker_infix_patientAnchorPre p)) s
    · exact Or.inl rfl
  split
  · rename_i n _
    split
    · exact dichStep h1 (scanReplace_dichotomy _ _
        (fun t => marker_infix_wrapAnchor t (marker_infix_patientNumAnchorPre p n)) _)
    · exact h1
  · exact h1

theorem apptPass_dichotomy (a : Appt) (s : List Char) :
    apptPass a s = s ∨ markerL <:+: apptPass a s := by
  rw [apptPass]
  split
  · simp only []
    split
    · exact scanReplace_dichotomy _ _
        (fun t => marker_infix_wrapAnchor t (marker_infix_apptAnchorPre a)) s
    · exact Or.inl rfl
  · exact Or.inl rfl

theorem deadlinePass_dichotomy (d : Deadline) (s : List Char) :
    deadlinePass d s = s ∨ markerL <:+: deadlinePass d s := by
  rw [deadlinePass]
  split
  · exact scanReplace_dichotomy _ _
      (fun t => marker_infix_wrapAnchor t (marker_infix_deadlineAnchorPre d)) s
  · exact Or.inl rfl

theorem invPass_dichotomy (i : InvItem) (s : List Char) :
    invPass i s = s ∨ markerL <:+: invPass i s := by
  rw [invPass]
  split
  · exact scanReplace_dichotomy _ _
      (fun t => marker_infix_wrapAnchor t (marker_infix_invAnchorPre i)) s
  · exact Or.inl rfl

theorem foldl_dichotomy {β : Type} (step : β → List Char → List Char)
    (hstep : ∀ b s, step b s = s ∨ markerL <:+: step b s) :
    ∀ (l : List β) (s : List Char),
      l.foldl (fun acc b => step b acc) s = s
        ∨ markerL <:+: l.foldl (fun acc b => step b acc) s
  | [], _ => Or.inl rfl
  | b :: bs, s => by
    rw [List.foldl_cons]
    exact dichStep (hstep b s) (foldl_dichotomy step hstep bs (step b s))

/-- The combined entity scans either change nothing or leave the marker in
the text. -/
theorem applyScans_dichotomy (cache : Cache) (s : List Char) :
    applyScans cache s = s ∨ markerL <:+: applyScans cache s := by
  rw [applyScans]
  exact dichStep
    (dichStep
      (dichStep (foldl_dichotomy patientPass patientPass_dichotomy cache.patients s)
        (foldl_dichotomy apptPass apptPass_dichotomy cache.appointments _))
      (foldl_dichotomy deadlinePass deadlinePass_dichotomy cache.deadlines _))
    (foldl_dichotomy invPass invPass_dichotomy cache.inventory _)

/-- `replaceFirstAux` either changes nothing or replaces one occurrence by
its substitution. -/
theorem replaceFirstAux_cases (pat rep : List Char) :
    ∀ (s pre : List Char), replaceFirstAux pat rep pre s = s
      ∨ ∃ a b, s = a ++ pat ++ b ∧
          replaceFirstAux pat rep pre s
            = a ++ getSubstitution pat (pre.reverse ++ a) b rep ++ b
  | [], pre => by
    rw [replaceFirstAux]
    by_cases hp : isPrefB pat [] = true
    · right
      have hpat : pat = [] := List.prefix_nil.mp (isPrefB_iff.mp hp)
      refine ⟨[], [], by simp [hpat], ?_⟩
      rw [if_pos hp]
      simp
    · exact Or.inl (by rw [if_neg hp])
  | c :: rest, pre => by
    rw [replaceFirstAux]
    by_cases hp : isPrefB pat (c :: rest) = true
    · right
      obtain ⟨t, ht⟩ := isPrefB_iff.mp hp
      refine ⟨[], t, by simp [ht.symm], ?_⟩
      rw [if_pos hp]
      have hdrop : (c :: rest).drop pat.length = t := by
        rw [← ht, List.drop_left]
      rw [hdrop]
      simp
    · rcases replaceFirstAux_cases pat rep rest (c :: pre) with h | ⟨a, b, hs, hr⟩
      · exact Or.inl (by rw [if_neg hp, h])
      · right
        refine ⟨c :: a, b, by rw [hs]; simp, ?_⟩
        rw [if_neg hp, hr]
        simp

/-- `replaceFirst` either changes nothing or replaces one occurrence by
its substitution against the surrounding text. -/
theorem replaceFirst_cases (pat rep s : List Char) :
    replaceFirst pat rep s = s
      ∨ ∃ a b, s = a ++ pat ++ b ∧
          replaceFirst pat rep s = a ++ getSubstitution pat a b rep ++ b := by
  rcases replaceFirstAux_cases pat rep s [] with h | ⟨a, b, hs, hr⟩
  · exact Or.inl h
  · right
    refine ⟨a, b, hs, ?_⟩
    rw [replaceFirst, hr]
    simp

/-- An occurrence of a nonempty pattern inside `a ++ mid ++ b` whose
characters are all foreign to `mid` lies entirely inside `a` or entirely
inside `b`. -/
theorem infix_split_disjoint {pat a mid b : List Char}
    (hd : ∀ c ∈ pat, c ∉ mid) (hm : mid ≠ []) (hp : pat ≠ [])
    (h : pat <:+: a ++ mid ++ b) :
    pat <:+: a ∨ pat <:+: b := by
  obtain ⟨u, v, huv⟩ := h
  by_cases h1 : u.length + pat.length ≤ a.length
  · left
    have htake : (u ++ pat ++ v).take (u.length + pat.length) = u ++ pat := by
      rw [List.take_append_eq_append_take, List.take_of_length_le (by simp)]
      have hz : u.length + pat.length - (u ++ pat).length = 0 := by
        simp only [List.length_append]
        omega
      rw [hz]
      simp
    have htake2 : (a ++ mid ++ b).take (u.length + pat.length)
        = a.take (u.length + pat.length) := by
      rw [List.append_assoc, List.take_append_eq_append_take]
      have hz : u.length + pat.length - a.length = 0 := by omega
      rw [hz]
      simp
    have heq : u ++ pat = a.take (u.length + pat.length) := by
      rw [← htake, huv, htake2]
    have hpre : u ++ pat <+: a := heq ▸ List.take_prefix _ a
    exact ((List.suffix_append u pat).isInfix).trans hpre.isInfix
  · by_cases h2 : a.length + mid.length ≤ u.length
    · right
      have hdrop : (u ++ pat ++ v).drop u.length = pat ++ v := by
        rw [List.append_assoc, List.drop_left]
      have hdrop2 : (a ++ mid ++ b).drop u.length
          = b.drop (u.length - a.length - mid.length) := by
        rw [List.append_assoc, List.drop_append_eq_append_drop]
        rw [List.drop_of_length_le (by omega), List.drop_append_eq_append_drop]
        rw [List.drop_of_length_le (by omega)]
        simp
      have heq : pat ++ v = b.drop (u.length - a.length - mid.length) := by
        rw [← hdrop, huv, hdrop2]
      have h3 : pat <+: b.drop (u.length - a.length - mid.length) := ⟨v, heq⟩
      exact (h3.isInfix).trans (List.drop_suffix _ b).isInfix
    · exfalso
      have hmlen : 0 < mid.length := List.length_pos.mpr hm
      have hplen : 0 < pat.length := List.length_pos.mpr hp
      set j := max u.length a.length with hj
      have hja : a.length ≤ j := le_max_right _ _
      have hju : u.length ≤ j := le_max_left _ _
      have hj1 : j < u.length + pat.length := by omega
      have hj2 : j < a.length + mid.length := by omega
      have e1 : (u ++ pat ++ v)[j]? = pat[j - u.length]? := by
        rw [List.append_assoc, List.getElem?_append_right hju,
          List.getElem?_append_left (by omega)]
      have e2 : (a ++ mid ++ b)[j]? = mid[j - a.length]? := by
        rw [List.append_assoc, List.getElem?_append_right hja,
          List.getElem?_append_left (by omega)]
      have e3 : pat[j - u.length]? = mid[j - a.length]? := by
        rw [← e1, ← e2, huv]
      cases hc : pat[j - u.length]? with
      | none =>
        have := List.getElem?_eq_none_iff.mp hc
        omega
      | some c =>
        have hcp : c ∈ pat := List.getElem?_mem hc
        have hcm : c ∈ mid := List.getElem?_mem (e3 ▸ hc)
        exact hd c hcp hcm

/-- The marker's characters never occur in a placeholder token. -/
theorem marker_numToken_disjoint (j : Nat) : ∀ c ∈ markerL, c ∉ numToken j := by
  have hnot1 : ∀ c ∈ markerL, c ∉ phPrefix := by decide
  have hnot2 : ∀ c ∈ markerL, c.isDigit = false := by decide
  have hnot3 : ('_' : Char) ∉ markerL := by decide
  intro c hc hmem
  unfold numToken at hmem
  rcases List.mem_append.mp hmem with h1 | h2
  · rcases List.mem_append.mp h1 with h3 | h4
    · exact hnot1 c hc h3
    · have hdig := natDigs_digits j c h4
      rw [hnot2 c hc] at hdig
      exact Bool.false_ne_true hdig
  · have hu : c = '_' := by
      rcases List.mem_cons.mp h2 with h | h
      · exact h
      · simpa using h
    subst hu
    exact hnot3 hc

theorem numToken_ne_nil (i : Nat) : numToken i ≠ [] := by
  intro h
  have := numToken_ge i
  rw [h] at this
  simp at this

/-- Replacing a placeholder token preserves the presence of the marker. -/
theorem replaceFirst_marker (i : Nat) (g : List Char) {s : List Char}
    (h : markerL <:+: s) : markerL <:+: replaceFirst (numToken i) g s := by
  rcases replaceFirst_cases (numToken i) g s with he | ⟨a, b, hs, hr⟩
  · rw [he]
    exact h
  · rw [hr]
    generalize getSubstitution (numToken i) a b g = X
    rcases infix_split_disjoint (marker_numToken_disjoint i) (numToken_ne_nil i)
        (by decide) (hs ▸ h) with ha | hb
    · exact ha.trans (IsPrefix.appR b (List.prefix_append a X)).isInfix
    · exact hb.trans (List.suffix_append (a ++ X) b).isInfix

/-- The placeholder restoration loop, processing tags with increasing token
indices (this is `restoreAll` with the enumeration unrolled). -/
def restoreFrom (i : Nat) : List (List Char) → List Char → List Char
  | [], s => s
  | g :: gs, s => restoreFrom (i + 1) gs (replaceFirst (numToken i) g s)

theorem enumFrom_foldl_restore :
    ∀ (tags : List (List Char)) (i : Nat) (s : List Char),
      (List.enumFrom i tags).foldl
          (fun acc it => replaceFirst (numToken it.1) it.2 acc) s
        = restoreFrom i tags s
  | [], _, _ => rfl
  | g :: gs, i, s => by
    rw [List.enumFrom_cons, List.foldl_cons]
    exact enumFrom_foldl_restore gs (i + 1) (replaceFirst (numToken i) g s)

theorem restoreAll_eq_restoreFrom (tags : List (List Char)) (s : List Char) :
    restoreAll tags s = restoreFrom 0 tags s := by
  rw [restoreAll, List.enum]
  exact enumFrom_foldl_restore tags 0 s

theorem restoreFrom_marker :
    ∀ (tags : List (List Char)) (i : Nat) {s : List Char},
      markerL <:+: s → markerL <:+: restoreFrom i tags s
  | [], _, _, h => h
  | g :: gs, i, _, h =>
    restoreFrom_marker gs (i + 1) (replaceFirst_marker i g h)

/-- When a nonempty pattern has no occurrence starting before the marked
one, `replaceFirstAux` replaces exactly the marked occurrence,
substituting against the accumulated prefix and the tail. -/
theorem replaceFirstAux_exact :
    ∀ (pre : List Char) {tok : List Char} (g tail pre0 : List Char), tok ≠ [] →
      (∀ q, q < pre.length → ¬ (tok <+: (pre ++ tok ++ tail).drop q)) →
      replaceFirstAux tok g pre0 (pre ++ tok ++ tail)
        = pre ++ getSubstitution tok (pre0.reverse ++ pre) tail g ++ tail
  | [], tok, g, tail, pre0, hne, _ => by
    cases tok with
    | nil => exact absurd rfl hne
    | cons t ts =>
      simp only [List.nil_append]
      rw [List.cons_append, replaceFirstAux,
        if_pos (isPrefB_iff.mpr ⟨tail, by rw [List.cons_append]⟩)]
      rw [← List.cons_append, List.drop_left]
      simp
  | c :: pre', tok, g, tail, pre0, hne, hnos => by
    have hstep : ((c :: pre') ++ tok) ++ tail = c :: ((pre' ++ tok) ++ tail) := by
      simp
    have h0 : ¬ (tok <+: c :: ((pre' ++ tok) ++ tail)) := by
      have h00 := hnos 0 (by simp)
      rw [List.drop_zero, hstep] at h00
      exact h00
    rw [hstep, replaceFirstAux, if_neg (fun hb => h0 (isPrefB_iff.mp hb))]
    have hrec := replaceFirstAux_exact pre' g tail (c :: pre0) hne (fun q hq => by
      have hq1 := hnos (q + 1) (by simp only [List.length_cons]; omega)
      rw [hstep, List.drop_succ_cons] at hq1
      exact hq1)
    rw [hrec]
    simp

/-- When a nonempty pattern has no occurrence starting before the marked
one, `replaceFirst` replaces exactly the marked occurrence by its
substitution. -/
theorem replaceFirst_exact (pre : List Char) {tok : List Char} (g tail : List Char)
    (hne : tok ≠ [])
    (hnos : ∀ q, q < pre.length → ¬ (tok <+: (pre ++ tok ++ tail).drop q)) :
    replaceFirst tok g (pre ++ tok ++ tail)
      = pre ++ getSubstitution tok pre tail g ++ tail := by
  rw [replaceFirst, replaceFirstAux_exact pre g tail [] hne hnos]
  simp

/-- The substitution of a dollar-free replacement string is itself. -/
theorem getSubstitution_no_dollar (m pre tail : List Char) :
    ∀ rep : List Char, '$' ∉ rep → getSubstitution m pre tail rep = rep
  | [], _ => rfl
  | c :: r, h => by
    rw [getSubstitution.eq_def]
    simp only []
    rw [List.mem_cons, not_or] at h
    rw [if_neg (fun hc => h.1 hc.symm)]
    rw [getSubstitution_no_dollar m pre tail r h.2]

/-- With no literal token-prefix text in `pre`, a placeholder token has no
occurrence starting inside `pre`. -/
theorem noSpurious (i : Nat) (pre tail : List Char)
    (hclean : ¬ phPrefix <:+: pre) :
    ∀ q, q < pre.length → ¬ (numToken i <+: (pre ++ numToken i ++ tail).drop q) := by
  intro q hq hpref
  have hL := numToken_ge i
  have hget : ∀ o, o < (numToken i).length →
      ((pre ++ numToken i) ++ tail)[q + o]? = (numToken i)[o]? := by
    intro o ho
    obtain ⟨w, hw⟩ := hpref
    have h1 : (((pre ++ numToken i) ++ tail).drop q)[o]? = (numToken i)[o]? := by
      rw [← hw, List.getElem?_append_left ho]
    rw [List.getElem?_drop] at h1
    exact h1
  by_cases hcase : 14 ≤ pre.length - q
  · -- the token prefix sits wholly inside `pre`
    have hchar : ∀ o, o < 14 → pre[q + o]? = phPrefix[o]? := by
      intro o ho
      have hb : o < (numToken i).length := by omega
      have h1 := hget o hb
      have h2 : ((pre ++ numToken i) ++ tail)[q + o]? = pre[q + o]? := by
        rw [List.getElem?_append_left
              (show q + o < (pre ++ numToken i).length by
                simp only [List.length_append]; omega),
            List.getElem?_append_left (by omega)]
      have h3 : (numToken i)[o]? = phPrefix[o]? := by
        rw [List.getElem?_eq_getElem hb,
          List.getElem?_eq_getElem (by rw [phPrefix_length]; exact ho),
          numToken_getElem_low i ho hb (by rw [phPrefix_length]; omega)]
      rw [h2] at h1
      rw [h1, h3]
    have hlenpre : 14 ≤ (pre.drop q).length := by
      rw [List.length_drop]
      omega
    have heq : phPrefix = (pre.drop q).take 14 := by
      apply List.ext_getElem
      · rw [phPrefix_length, List.length_take]
        omega
      · intro n h1 h2
        rw [phPrefix_length] at h1
        rw [List.getElem_take, List.getElem_drop]
        have h3 := hchar n h1
        rw [List.getElem?_eq_getElem (by omega),
          List.getElem?_eq_getElem (by rw [phPrefix_length]; exact h1)] at h3
        exact (Option.some.inj h3).symm
    have hpre2 : phPrefix <+: pre.drop q := by
      rw [List.prefix_iff_eq_take, phPrefix_length]
      exact heq
    exact hclean (hpre2.isInfix.trans (List.drop_suffix q pre).isInfix)
  · -- the occurrence straddles the boundary: periodicity contradiction
    set s := pre.length - q with hs
    have hs1 : 1 ≤ s := by omega
    have hs13 : s ≤ 13 := by omega
    have hqs : q + s = pre.length := by omega
    have hmid : ∀ o, o < (numToken i).length →
        ((pre ++ numToken i) ++ tail)[pre.length + o]? = (numToken i)[o]? := by
      intro o ho
      rw [List.getElem?_append_left
            (show pre.length + o < (pre ++ numToken i).length by
              simp only [List.length_append]; omega),
          List.getElem?_append_right (Nat.le_add_right _ _)]
      congr 1
      omega
    have e1 : (numToken i)[s]? = (numToken i)[0]? := by
      have h1 := hget s (by omega)
      rw [hqs] at h1
      have h2 := hmid 0 (by omega)
      rw [Nat.add_zero] at h2
      rw [← h1, h2]
    have e2 : (numToken i)[s + 1]? = (numToken i)[1]? := by
      have h1 := hget (s + 1) (by omega)
      have hq1 : q + (s + 1) = pre.length + 1 := by omega
      rw [hq1] at h1
      have h2 := hmid 1 (by omega)
      rw [← h1, h2]
    have hb0 : (0 : Nat) < (numToken i).length := by omega
    have hb1 : (1 : Nat) < (numToken i).length := by omega
    have hbs : s < (numToken i).length := by omega
    have hbs1 : s + 1 < (numToken i).length := by omega
    have v0 : (numToken i)[0] = '_' := by
      rw [numToken_getElem_low i (by omega) hb0 (by rw [phPrefix_length]; omega)]
      rfl
    have v1 : (numToken i)[1] = '_' := by
      rw [numToken_getElem_low i (by omega) hb1 (by rw [phPrefix_length]; omega)]
      rfl
    have vs : (numToken i)[s] = '_' := by
      rw [List.getElem?_eq_getElem hbs, List.getElem?_eq_getElem hb0] at e1
      rw [Option.some.inj e1, v0]
    have vs1 : (numToken i)[s + 1] = '_' := by
      rw [List.getElem?_eq_getElem hbs1, List.getElem?_eq_getElem hb1] at e2
      rw [Option.some.inj e2, v1]
    by_cases hs14 : s + 1 < 14
    · have hus : phPrefix.getD s 'x' = '_' := by
        rw [List.getD_eq_getElem _ _ (by rw [phPrefix_length]; omega),
          ← numToken_getElem_low i (by omega) hbs (by rw [phPrefix_length]; omega)]
        exact vs
      have hus1 : phPrefix.getD (s + 1) 'x' = '_' := by
        rw [List.getD_eq_getElem _ _ (by rw [phPrefix_length]; omega),
          ← numToken_getElem_low i hs14 hbs1 (by rw [phPrefix_length]; omega)]
        exact vs1
      exact phPrefix_no_uu s hs1 hs14 ⟨hus, hus1⟩
    · have hs14' : s + 1 = 14 := by omega
      have e3 : (numToken i)[s + 1]? = (numToken i)[14]? := by
        rw [hs14']
      have hb14 : (14 : Nat) < (numToken i).length := by omega
      have hd14 : (numToken i)[14] = '_' := by
        rw [List.getElem?_eq_getElem hbs1, List.getElem?_eq_getElem hb14] at e3
        rw [← Option.some.inj e3, vs1]
      rw [numToken_getElem_14 i hb14 (natDigs_pos i)] at hd14
      have hdig := natDigs_digits i _ (List.getElem_mem (natDigs_pos i))
      rw [hd14] at hdig
      exact absurd hdig (by decide)

/-- `tagBody` soundness: it splits the list at its first `>`. -/
theorem tagBody_sound : ∀ {s b r : List Char}, tagBody s = some (b, r) → s = b ++ '>' :: r
  | [], b, r => by simp [tagBody]
  | c :: rest, b, r => by
    intro h
    rw [tagBody] at h
    by_cases hc : c = '>'
    · rw [if_pos hc] at h
      obtain ⟨rfl, rfl⟩ := Prod.mk.injEq _ _ _ _ ▸ Option.some.injEq _ _ ▸ h
      simp [hc]
    · rw [if_neg hc] at h
      cases htb : tagBody rest with
      | none => rw [htb] at h; simp at h
      | some br =>
        obtain ⟨b2, r2⟩ := br
        rw [htb] at h
        simp only [Option.some.injEq, Prod.mk.injEq] at h
        obtain ⟨rfl, rfl⟩ := h
        have := tagBody_sound htb
        simp [this]

theorem findTagEnd_sound {rest body rest2 : List Char}
    (h : findTagEnd rest = some (body, rest2)) :
    rest = body ++ '>' :: rest2 ∧ body ≠ [] := by
  rw [findTagEnd] at h
  cases htb : tagBody rest with
  | none => rw [htb] at h; simp at h
  | some br =>
    obtain ⟨b, r⟩ := br
    rw [htb] at h
    simp only [] at h
    by_cases hb : b = []
    · rw [if_pos hb] at h
      simp at h
    · rw [if_neg hb] at h
      simp only [Option.some.injEq, Prod.mk.injEq] at h
      obtain ⟨rfl, rfl⟩ := h
      exact ⟨tagBody_sound htb, hb⟩

/-- Round trip: when the entity scans change nothing and the input carries
neither literal placeholder-prefix text nor a dollar character (so the
extracted tags substitute to themselves), restoring the placeholders of
the extracted text reproduces the input exactly. -/
theorem extract_restore :
    ∀ (f : Nat) (t : List Char) (i : Nat) (pre : List Char),
      t.length ≤ f → ¬ phPrefix <:+: (pre ++ t) → '$' ∉ t →
      restoreFrom i (extractAux f i t).2 (pre ++ (extractAux f i t).1) = pre ++ t := by
  intro f
  induction f with
  | zero =>
    intro t i pre hlen _ _
    have ht : t = [] := List.length_eq_zero.mp (Nat.le_zero.mp hlen)
    subst ht
    rfl
  | succ f ih =>
    intro t i pre hlen hclean hdol
    cases t with
    | nil => rfl
    | cons c rest =>
      have hdrest : '$' ∉ rest := fun hm => hdol (List.mem_cons_of_mem c hm)
      rw [extractAux]
      by_cases hc : c = '<'
      · rw [if_pos hc]
        cases hft : findTagEnd rest with
        | none =>
          simp only []
          have hres := ih rest i (pre ++ [c])
            (by simp only [List.length_cons] at hlen; omega)
            (by rw [List.append_assoc, List.singleton_append]; exact hclean)
            hdrest
          rw [show pre ++ (c :: (extractAux f i rest).1)
                = (pre ++ [c]) ++ (extractAux f i rest).1 by simp, hres]
          simp
        | some br =>
          obtain ⟨body, rest2⟩ := br
          simp only []
          obtain ⟨hrest, hbody⟩ := findTagEnd_sound hft
          have hlen2 : rest2.length ≤ f := by
            have h1 : rest.length ≤ f := by
              simp only [List.length_cons] at hlen
              omega
            rw [hrest] at h1
            simp only [List.length_append, List.length_cons] at h1
            omega
          have hdol2 : '$' ∉ rest2 := fun hm => hdrest (by
            rw [hrest]
            exact List.mem_append_right body (List.mem_cons_of_mem _ hm))
          have hdolg : '$' ∉ ('<' :: (body ++ ['>'])) := by
            intro hm
            rcases List.mem_cons.mp hm with h1 | h2
            · exact absurd h1 (by decide)
            · rcases List.mem_append.mp h2 with h3 | h4
              · exact hdrest (by rw [hrest]; exact List.mem_append_left _ h3)
              · exact absurd (List.mem_singleton.mp h4) (by decide)
          have hclean_pre : ¬ phPrefix <:+: pre := fun h =>
            hclean (h.trans (List.prefix_append pre (c :: rest)).isInfix)
          rw [restoreFrom]
          rw [show pre ++ (numToken i ++ (extractAux f (i + 1) rest2).1)
                = (pre ++ numToken i) ++ (extractAux f (i + 1) rest2).1 by simp]
          rw [replaceFirst_exact pre ('<' :: (body ++ ['>']))
                (extractAux f (i + 1) rest2).1 (numToken_ne_nil i)
                (noSpurious i pre _ hclean_pre)]
          rw [getSubstitution_no_dollar (numToken i) pre
                (extractAux f (i + 1) rest2).1 ('<' :: (body ++ ['>'])) hdolg]
          have halg : (pre ++ ('<' :: (body ++ ['>']))) ++ rest2 = pre ++ c :: rest := by
            rw [hrest, hc]
            simp
          have hres := ih rest2 (i + 1) (pre ++ ('<' :: (body ++ ['>']))) hlen2
            (by rw [halg]; exact hclean) hdol2
          rw [show pre ++ ('<' :: (body ++ ['>'])) ++ (extractAux f (i + 1) rest2).1
                = (pre ++ ('<' :: (body ++ ['>']))) ++ (extractAux f (i + 1) rest2).1 by simp]
          rw [hres, halg]
      · rw [if_neg hc]
        simp only []
        have hres := ih rest i (pre ++ [c])
          (by simp only [List.length_cons] at hlen; omega)
          (by rw [List.append_assoc, List.singleton_append]; exact hclean)
          hdrest
        rw [show pre ++ (c :: (extractAux f i rest).1)
              = (pre ++ [c]) ++ (extractAux f i rest).1 by simp, hres]
        simp

/-- Text that already carries the annotation marker is returned unchanged. -/
theorem linkify_marker_fixed (cache : Cache) (t : String)
    (h : strContains t "entity-link" = true) :
    linkifyEntityMentions cache t = t := by
  rw [linkifyEntityMentions]
  by_cases h0 : t = ""
  · rw [if_pos h0]
  · rw [if_neg h0, if_pos h]

/-- C8: a string already containing the linker's annotation marker
`entity-link` is returned unchanged, and — as corrected — the linker is
idempotent for every input that contains neither the literal internal
placeholder-token text `__PLACEHOLDER_` nor a dollar character (the
restore step's string replacement expands dollar escapes); the
unrestricted idempotence statement is refuted by the separate
counterexample. -/
theorem claim_C8 :
    (∀ (cache : Cache) (t : String), strContains t "entity-link" = true →
        linkifyEntityMentions cache t = t) ∧
    (∀ (cache : Cache) (t : String), strContains t "__PLACEHOLDER_" = false →
        '$' ∉ t.data →
        linkifyEntityMentions cache (linkifyEntityMentions cache t)
          = linkifyEntityMentions cache t) := by
  constructor
  · intro cache t h
    exact linkify_marker_fixed cache t h
  · intro cache t hph hdol
    by_cases ht0 : t = ""
    · subst ht0
      rfl
    by_cases hmk : strContains t "entity-link" = true
    · rw [linkify_marker_fixed cache t hmk, linkify_marker_fixed cache t hmk]
    · have hexp : linkifyEntityMentions cache t
          = String.mk (restoreAll (extractAux t.data.length 0 t.data).2
              (applyScans cache (extractAux t.data.length 0 t.data).1)) := by
        rw [linkifyEntityMentions, if_neg ht0, if_neg hmk]
      by_cases happ :
          applyScans cache (extractAux t.data.length 0 t.data).1
            = (extractAux t.data.length 0 t.data).1
      · have hcl : ¬ phPrefix <:+: ([] ++ t.data) := by
          rw [List.nil_append]
          intro hcon
          rw [← isInfB_iff] at hcon
          have h2 : strContains t "__PLACEHOLDER_" = true := hcon
          rw [hph] at h2
          exact Bool.noConfusion h2
        have hR := extract_restore t.data.length t.data 0 [] (le_refl _) hcl hdol
        rw [List.nil_append, List.nil_append] at hR
        have hft : linkifyEntityMentions cache t = t := by
          rw [hexp, happ, restoreAll_eq_restoreFrom, hR]
        rw [hft, hft]
      · have hmark : markerL <:+:
            applyScans cache (extractAux t.data.length 0 t.data).1 :=
          (applyScans_dichotomy cache (extractAux t.data.length 0 t.data).1).resolve_left happ
        have hmark2 : markerL <:+: (linkifyEntityMentions cache t).data := by
          have hrf := restoreFrom_marker (extractAux t.data.length 0 t.data).2 0 hmark
          rw [hexp]
          show markerL <:+: restoreAll (extractAux t.data.length 0 t.data).2
            (applyScans cache (extractAux t.data.length 0 t.data).1)
          rw [restoreAll_eq_restoreFrom]
          exact hrf
        have hmk3 : strContains (linkifyEntityMentions cache t) "entity-link" = true :=
          isInfB_iff.mpr hmark2
        exact linkify_marker_fixed cache (linkifyEntityMentions cache t) hmk3

def cacheW : Cache :=
  { patients := [{ id := 1, name := "Ann" }] }

theorem claim_C8_witness :
    (strContains "see the entity-link here" "entity-link" = true ∧
      linkifyEntityMentions cacheW "see the entity-link here"
        = "see the entity-link here") ∧
    (strContains "see Ann today" "__PLACEHOLDER_" = false ∧
      '$' ∉ ("see Ann today").data ∧
      linkifyEntityMentions cacheW (linkifyEntityMentions cacheW "see Ann today")
        = linkifyEntityMentions cacheW "see Ann today") :=
  ⟨⟨by decide, claim_C8.1 cacheW "see the entity-link here" (by decide)⟩,
    ⟨by decide, by decide,
      claim_C8.2 cacheW "see Ann today" (by decide) (by decide)⟩⟩

def cacheC8 : Cache :=
  { patients := [{ id := 7, name := "s __PLACEHOLDER_0__ e" }] }

def xC8 : String :=
  "s __PLACEHOLDER_1__ e <i> <b>"

def xD8 : String :=
  "x <$$&> y"

/-- Counterexample to unrestricted idempotence, in two independent ways.
First, an input carrying the linker's internal placeholder text next to
markup tags makes the restore phase cross-wire the placeholders, and a
second application rewrites the output again. Second, even with no cached
entities and no placeholder text, a dollar escape inside a markup tag is
expanded by the restore step's string replacement, so the first
application alters the tag and the second alters it again. Neither input
contains the annotation marker, so the early-return clause applies to
neither. -/
theorem claim_C8_counterexample :
    (strContains xC8 "entity-link" = false ∧
      linkifyEntityMentions cacheC8 (linkifyEntityMentions cacheC8 xC8)
        ≠ linkifyEntityMentions cacheC8 xC8) ∧
    (strContains xD8 "entity-link" = false ∧
      strContains xD8 "__PLACEHOLDER_" = false ∧
      linkifyEntityMentions {} (linkifyEntityMentions {} xD8)
        ≠ linkifyEntityMentions {} xD8) := by
  refine ⟨⟨?_, ?_⟩, ?_, ?_, ?_⟩ <;> decide


end Clinic
